import Mathlib

/-!
Asynchronous drive interface of the I/O manager.

Shallow embedding of `src/lib/interfaces/aio_drive_interface.cpp`
(class `AioDriveInterface` and the two `aio_thread_context` methods defined in
that file).

Conventions of the embedding

* The thread-local context `t_aio_ctx`, the static poll-interval table, `errno`,
  the metrics counters and the reactor's poll interval are fields of one
  explicit `State` that every operation threads through.
* A request descriptor (`iocb_info_t*`) is exclusively owned by exactly one
  holder at a time, so the pointer is embedded as the record it points to.
* The kernel is the environment: `io_submit` answers are read from an oracle
  indexed by the running number of the call; completion events are an input
  of `handle_completions`.
* `State.held` and `State.trace` are ghost fields: the descriptors the kernel
  has accepted and not yet completed, and the chronological log of kernel
  submissions, failure-path entries, descriptor releases and callbacks.
* The `_PRERELEASE` test hooks are compiled out, as in a release build.
* The completion callback `m_comp_cb` is installed and does not re-enter the
  interface.
-/

namespace iomgr

/-- Value of `errno` meaning "resource temporarily unavailable". -/
def EAGAIN : Int := 11

/-- Value of `errno` meaning "input/output error" (the constant EIO of errno.h). -/
def EIO_errno : Int := 5

/-- Number of values of the unsigned 64-bit counter. -/
def UINT64_SIZE : Nat := 2 ^ 64

/-- Compile-time constants of the absent header `aio_drive_interface.hpp` and the
dynamic configuration values read through `IM_DYNAMIC_CONFIG`. -/
structure Config where
  /-- Capacity of the kernel context and of the descriptor pool
  (`MAX_OUTSTANDING_IO` in the source). -/
  MAX_OUTSTANDING : Nat
  /-- Capacity of the batch accumulator. -/
  max_batch_iocb_count : Nat
  /-- Largest vector length a batched descriptor may carry. -/
  max_batch_iov_cnt : Nat
  /-- Dynamic configuration `max_resubmit_cnt`. -/
  max_resubmit_cnt : Nat
  /-- Dynamic configuration `poll.force_wakeup_by_time_ms` (stored as `int`). -/
  force_wakeup_by_time_ms : Int
  /-- Dynamic configuration `poll.tight_loop_after_io_max`. -/
  tight_loop_after_io_max : Nat
deriving DecidableEq, Repr

/-- Request descriptor: the fields of `iocb_info_t` the interface reads.
`data` is `iocb->data`, the caller's cookie. -/
structure iocb_info_t where
  is_read : Bool
  fd : Int
  size : Nat
  offset : Nat
  data : Nat
  resubmit_cnt : Nat
deriving DecidableEq, Repr

/-- Completion record delivered by the kernel. `res` is read through the
signed cast the source applies (`static_cast< int64_t >(e.res)`). -/
structure io_event where
  obj : iocb_info_t
  res : Int
  res2 : Int
deriving DecidableEq, Repr

/-- Observable actions, logged in chronological order. -/
inductive Action where
  /-- One `io_submit` call: the control blocks passed and the kernel's return value. -/
  | io_submit (iocbs : List iocb_info_t) (ret : Int)
  /-- Entry into `handle_io_failure` for a descriptor. -/
  | io_failure (iocb : iocb_info_t)
  /-- The call `t_aio_ctx->free_iocb(iocb)`: release of a descriptor to the pool. -/
  | free_iocb (iocb : iocb_info_t)
  /-- The call `m_comp_cb(res, cookie)`. -/
  | comp_cb (res : Int) (cookie : Nat)
deriving DecidableEq, Repr

/-- Metrics counters touched by the interface. -/
structure Metrics where
  io_callbacks : Nat
  aio_events_in_callback : Int
  iface_io_batch_count : Nat
  iface_io_actual_count : Nat
  completion_errors : Nat
  resubmit_io_on_err : Nat
  retry_list_size : Int
  queued_aio_slots_full : Nat
  retry_io_eagain_error : Nat
  read_io_submission_errors : Nat
  write_io_submission_errors : Nat
deriving DecidableEq, Repr

/-- Thread I/O context together with the globals the interface reads and writes. -/
structure State where
  /-- Field `aio_thread_context::submitted_aio` (unsigned 64-bit). -/
  submitted_aio : Nat
  /-- Field `aio_thread_context::iocb_retry_list`, front of the queue first. -/
  iocb_retry_list : List iocb_info_t
  /-- Field `aio_thread_context::cur_iocb_batch`, in order of accumulation. -/
  cur_iocb_batch : List iocb_info_t
  /-- Field `aio_thread_context::timer_set`. -/
  timer_set : Bool
  /-- Static `AioDriveInterface::s_poll_interval_table`. -/
  s_poll_interval_table : List Int
  /-- Interval last passed to `set_poll_interval` of the reactor. -/
  poll_interval : Int
  /-- The C library's `errno`. -/
  errno : Int
  metrics : Metrics
  /-- Number of `io_submit` calls made so far (index into the kernel oracle). -/
  n_io_submit : Nat
  /-- Ghost: descriptors accepted by the kernel and not yet completed. -/
  held : List iocb_info_t
  /-- Ghost: log of observable actions. -/
  trace : List Action

/-- Kernel oracle: for the `i`-th `io_submit` call, passing `nr` control blocks,
the return value of the call and the value of `errno` after it. -/
abbrev Kernel := Nat → Nat → Int × Int

/-! ## Poll-interval table -/

/-- Body of `AioDriveInterface::init_poll_interval_table`: the table is cleared,
the force-wakeup interval is pushed, then `t = table[0]` is pushed for
`i = 1 .. tight_loop_after_ios - 1`, then `0` is pushed. -/
def init_poll_interval_table (cfg : Config) : List Int :=
  let table0 : List Int := [cfg.force_wakeup_by_time_ms]
  let t : Int := table0.headD 0
  let table1 := (List.range' 1 (cfg.tight_loop_after_io_max - 1)).foldl
    (fun tbl _ => tbl ++ [t]) table0
  table1 ++ [0]

/-- The guarded read `count >= table.size() ? 0 : table[count]` of
`inc_submitted_aio` / `dec_submitted_aio`. The result is `none` exactly when the
subscript would fall outside the table. -/
def poll_interval_lookup (table : List Int) (count : Nat) : Option Int :=
  if count ≥ table.length then some 0 else table.get? count

/-- Value the guarded read yields for an outstanding count. -/
def reported_interval (table : List Int) (count : Nat) : Int :=
  (poll_interval_lookup table count).getD 0

/-- Call `iomanager.this_reactor()->set_poll_interval(...)` with the guarded read. -/
def set_poll_interval (s : State) : State :=
  { s with poll_interval := reported_interval s.s_poll_interval_table s.submitted_aio }

/-- Method `aio_thread_context::dec_submitted_aio`. -/
def dec_submitted_aio (s : State) : State :=
  set_poll_interval { s with submitted_aio := (s.submitted_aio + UINT64_SIZE - 1) % UINT64_SIZE }

/-- Method `aio_thread_context::inc_submitted_aio`. -/
def inc_submitted_aio (count : Int) (s : State) : State :=
  if count < 0 then s
  else set_poll_interval { s with submitted_aio := (s.submitted_aio + count.toNat) % UINT64_SIZE }

/-! ## Parts of `aio_thread_context` declared in the absent header -/

/-- Modelled from the spec: `aio_thread_context::can_submit_aio` is declared in the
absent header. Spec 4.3 step 1: a request is deferred when "the thread's
outstanding-request counter has reached capacity". -/
def can_submit_aio (cfg : Config) (s : State) : Bool :=
  decide (s.submitted_aio < cfg.MAX_OUTSTANDING)

/-- Modelled from the spec: `aio_thread_context::can_be_batched` is declared in the
absent header. Spec 4.3 step 2: "the current batch accumulator has room
(accounting for vector-entry limits)". -/
def can_be_batched (cfg : Config) (s : State) (iovcnt : Nat) : Bool :=
  decide (iovcnt ≤ cfg.max_batch_iov_cnt) && decide (s.cur_iocb_batch.length < cfg.max_batch_iocb_count)

/-- Modelled from the spec: `prep_iocb` / `prep_iocb_v` are declared in the absent
header. Spec 3: a descriptor carries target descriptor, read/write flag,
size, offset, cookie and a resubmission counter, and is "created when a
request is accepted". -/
def prep_iocb (fd : Int) (is_read : Bool) (size offset cookie : Nat) : iocb_info_t :=
  { is_read := is_read, fd := fd, size := size, offset := offset, data := cookie, resubmit_cnt := 0 }

/-- Modelled from the spec: with `batch_io = true`, `prep_iocb` appends the new
descriptor to the batch accumulator ("the descriptor is appended to the
batch", spec 4.3 step 2). -/
def append_cur_batch (iocb : iocb_info_t) (s : State) : State :=
  { s with cur_iocb_batch := s.cur_iocb_batch ++ [iocb] }

/-- Modelled from the spec: `aio_thread_context::free_iocb` is declared in the absent
header; it returns the descriptor to the pool (spec 3). -/
def free_iocb (iocb : iocb_info_t) (s : State) : State :=
  { s with trace := s.trace ++ [Action.free_iocb iocb] }

/-- The call `m_comp_cb(res, cookie)`. -/
def comp_cb (res : Int) (cookie : Nat) (s : State) : State :=
  { s with trace := s.trace ++ [Action.comp_cb res cookie] }

/-! ## Kernel submission -/

/-- The system call `io_submit(ioctx, nr, iocbs)`. The kernel's answer is read from
the oracle; a positive answer `r` means the first `r` control blocks were
accepted. -/
def io_submit (k : Kernel) (iocbs : List iocb_info_t) (s : State) : Int × State :=
  let r := k s.n_io_submit iocbs.length
  (r.1, { s with n_io_submit := s.n_io_submit + 1
                 errno := r.2
                 held := s.held ++ iocbs.take r.1.toNat
                 trace := s.trace ++ [Action.io_submit iocbs r.1] })

/-! ## `AioDriveInterface` -/

/-- Method `AioDriveInterface::push_retry_list`. The queue of the context is FIFO
(spec 3: "a retry queue (ordered, FIFO)"); arming the one-shot timer leaves
`timer_set = true`. -/
def push_retry_list (iocb : iocb_info_t) (no_slot : Bool) (s : State) : State :=
  let m := s.metrics
  let m1 : Metrics := if no_slot then { m with queued_aio_slots_full := m.queued_aio_slots_full + 1 }
    else { m with retry_io_eagain_error := m.retry_io_eagain_error + 1 }
  let m2 : Metrics := { m1 with retry_list_size := m1.retry_list_size + 1 }
  { s with metrics := m2
           iocb_retry_list := s.iocb_retry_list ++ [iocb]
           timer_set := true }

/-- Method `AioDriveInterface::handle_io_failure`. -/
def handle_io_failure (iocb : iocb_info_t) (s : State) : Bool × State :=
  let s0 : State := { s with trace := s.trace ++ [Action.io_failure iocb] }
  if s0.errno = EAGAIN then
    (true, push_retry_list iocb false s0)
  else
    let m := s0.metrics
    let m1 : Metrics := if iocb.is_read
      then { m with read_io_submission_errors := m.read_io_submission_errors + 1 }
      else { m with write_io_submission_errors := m.write_io_submission_errors + 1 }
    let s1 : State := { s0 with metrics := m1 }
    let s2 := free_iocb iocb s1
    (false, comp_cb s2.errno iocb.data s2)

/-- Method `AioDriveInterface::resubmit_iocb_on_err`. -/
def resubmit_iocb_on_err (cfg : Config) (k : Kernel) (iocb : iocb_info_t) (s : State) :
    Bool × State :=
  if iocb.resubmit_cnt > cfg.max_resubmit_cnt then (false, s)
  else
    let iocb1 : iocb_info_t := { iocb with resubmit_cnt := iocb.resubmit_cnt + 1 }
    let r := io_submit k [iocb1] s
    let s1 : State := { r.2 with metrics :=
      { r.2.metrics with resubmit_io_on_err := r.2.metrics.resubmit_io_on_err + 1 } }
    if r.1 ≠ 1 then (true, (handle_io_failure iocb1 s1).2) else (true, s1)

/-- Common body of `async_write`, `async_read`, `async_writev` and `async_readv`,
which differ only in the read flag and in the vector length passed to
`can_be_batched` (0 for the two non-vectored calls). -/
def async_submit (cfg : Config) (k : Kernel) (is_read : Bool) (iovcnt : Nat) (fd : Int)
    (size offset cookie : Nat) (part_of_batch : Bool) (s : State) : State :=
  if !can_submit_aio cfg s then
    push_retry_list (prep_iocb fd is_read size offset cookie) true s
  else if part_of_batch && can_be_batched cfg s iovcnt then
    append_cur_batch (prep_iocb fd is_read size offset cookie) s
  else
    let iocb := prep_iocb fd is_read size offset cookie
    let s1 : State := { s with metrics :=
      { s.metrics with iface_io_batch_count := s.metrics.iface_io_batch_count + 1
                       iface_io_actual_count := s.metrics.iface_io_actual_count + 1 } }
    let r := io_submit k [iocb] s1
    let s2 := inc_submitted_aio r.1 r.2
    if r.1 ≠ 1 then (handle_io_failure iocb s2).2 else s2

/-- Method `AioDriveInterface::async_write`. -/
def async_write (cfg : Config) (k : Kernel) (fd : Int) (size offset cookie : Nat)
    (part_of_batch : Bool) (s : State) : State :=
  async_submit cfg k false 0 fd size offset cookie part_of_batch s

/-- Method `AioDriveInterface::async_read`. -/
def async_read (cfg : Config) (k : Kernel) (fd : Int) (size offset cookie : Nat)
    (part_of_batch : Bool) (s : State) : State :=
  async_submit cfg k true 0 fd size offset cookie part_of_batch s

/-- Method `AioDriveInterface::async_writev`. -/
def async_writev (cfg : Config) (k : Kernel) (fd : Int) (iovcnt size offset cookie : Nat)
    (part_of_batch : Bool) (s : State) : State :=
  async_submit cfg k false iovcnt fd size offset cookie part_of_batch s

/-- Method `AioDriveInterface::async_readv`. -/
def async_readv (cfg : Config) (k : Kernel) (fd : Int) (iovcnt size offset cookie : Nat)
    (part_of_batch : Bool) (s : State) : State :=
  async_submit cfg k true iovcnt fd size offset cookie part_of_batch s

/-- One iteration of the `for` loop of `submit_batch`: `handle_io_failure` on
`ibatch.iocb_info[i]`. -/
def submit_batch_body (ibatch : List iocb_info_t) (s : State) (i : Nat) : State :=
  match ibatch.get? i with
  | some info => (handle_io_failure info s).2
  | none => s

/-- Method `AioDriveInterface::submit_batch`. -/
def submit_batch (k : Kernel) (s : State) : State :=
  let ibatch := s.cur_iocb_batch
  let s0 : State := { s with cur_iocb_batch := [] }
  if ibatch.length = 0 then s0
  else
    let s1 : State := { s0 with metrics :=
      { s0.metrics with iface_io_batch_count := s0.metrics.iface_io_batch_count + 1 } }
    let r := io_submit k ibatch s1
    let n_issued : Int := if r.1 < 0 then 0 else r.1
    let s2 : State := { r.2 with metrics :=
      { r.2.metrics with iface_io_actual_count := r.2.metrics.iface_io_actual_count + n_issued.toNat } }
    let s3 := inc_submitted_aio n_issued s2
    let n_iocbs := ibatch.length
    (List.range' n_issued.toNat (n_iocbs - n_issued.toNat)).foldl (submit_batch_body ibatch) s3

/-- The `while` loop of `retry_io`, with an explicit bound on the number of
iterations; `none` means the bound was reached before the loop exited. -/
def retry_io_loop (cfg : Config) (k : Kernel) : Nat → State → Option State
  | 0, _ => none
  | fuel + 1, s =>
    if can_submit_aio cfg s then
      match s.iocb_retry_list with
      | [] => some s
      | iocb :: rest =>
        let s1 : State := { s with iocb_retry_list := rest
                                   metrics := { s.metrics with retry_list_size := s.metrics.retry_list_size - 1 } }
        let r := io_submit k [iocb] s1
        let s2 := inc_submitted_aio r.1 r.2
        if r.1 ≠ 1 then
          let f := handle_io_failure iocb s2
          if f.1 then some f.2 else retry_io_loop cfg k fuel f.2
        else retry_io_loop cfg k fuel s2
    else some s

/-- Method `AioDriveInterface::retry_io`. Every iteration pops one descriptor and
only the last one can push one back, so one more iteration than the queue
length always reaches the exit (`retry_io_loop_terminates`). -/
def retry_io (cfg : Config) (k : Kernel) (s : State) : State :=
  (retry_io_loop cfg k (s.iocb_retry_list.length + 1) s).getD s

/-- Tail of the loop body of `handle_completions` (source lines 201-205): the
request is finalized with result `res2`. -/
def handle_completions_finish (cfg : Config) (k : Kernel) (iocb : iocb_info_t) (res2 : Int)
    (s : State) : State :=
  let user_cookie := iocb.data
  let s1 := dec_submitted_aio s
  let s2 := free_iocb iocb s1
  let s3 := retry_io cfg k s2
  comp_cb res2 user_cookie s3

/-- Loop body of `handle_completions` for one completion record. -/
def handle_completions_body (cfg : Config) (k : Kernel) (s : State) (e : io_event) : State :=
  let ret := e.res
  let iocb := e.obj
  if ret < 0 then
    let s1 : State := { s with metrics :=
      { s.metrics with completion_errors := s.metrics.completion_errors + 1 } }
    handle_completions_finish cfg k iocb e.res2 s1
  else if e.res ≠ (iocb.size : Int) ∨ e.res2 ≠ 0 then
    let s1 : State := { s with metrics :=
      { s.metrics with completion_errors := s.metrics.completion_errors + 1 } }
    let res2 : Int := if e.res2 = 0 then EIO_errno else e.res2
    let rs := resubmit_iocb_on_err cfg k iocb s1
    if rs.1 then rs.2 else handle_completions_finish cfg k iocb res2 rs.2
  else
    handle_completions_finish cfg k iocb e.res2 s

/-- Method `AioDriveInterface::handle_completions`. The inputs are the return value
`nevents` of `io_getevents` and the content of the event array; the kernel
no longer holds the descriptors of the records it hands over. -/
def handle_completions (cfg : Config) (k : Kernel) (nevents : Int) (events : List io_event)
    (s : State) : State :=
  let evs := events.take nevents.toNat
  let s0 : State := { s with held := s.held.diff (evs.map io_event.obj)
                             metrics := { s.metrics with io_callbacks := s.metrics.io_callbacks + 1 } }
  if nevents = 0 then s0
  else
    let s1 : State := if nevents < 0
      then { s0 with metrics := { s0.metrics with completion_errors := s0.metrics.completion_errors + 1 } }
      else { s0 with metrics := { s0.metrics with aio_events_in_callback := s0.metrics.aio_events_in_callback + nevents } }
    evs.foldl (handle_completions_body cfg k) s1

/-- Callback of the one-shot timer armed by `push_retry_list`. -/
def retry_timer (cfg : Config) (k : Kernel) (s : State) : State :=
  retry_io cfg k { s with timer_set := false }

/-- State of a freshly attached thread context (`init_iface_thread_ctx`), with the
table built by the constructor. -/
def init_iface_thread_ctx (cfg : Config) : State :=
  { submitted_aio := 0
    iocb_retry_list := []
    cur_iocb_batch := []
    timer_set := false
    s_poll_interval_table := init_poll_interval_table cfg
    poll_interval := 0
    errno := 0
    metrics := ⟨0, 0, 0, 0, 0, 0, 0, 0, 0, 0, 0⟩
    n_io_submit := 0
    held := []
    trace := [] }

/-! ## Operation sequences -/

/-- Calls a client, the reactor or the timer can make on the interface. -/
inductive Op where
  | async_write (fd : Int) (size offset cookie : Nat) (part_of_batch : Bool)
  | async_read (fd : Int) (size offset cookie : Nat) (part_of_batch : Bool)
  | async_writev (fd : Int) (iovcnt size offset cookie : Nat) (part_of_batch : Bool)
  | async_readv (fd : Int) (iovcnt size offset cookie : Nat) (part_of_batch : Bool)
  | submit_batch
  | handle_completions (nevents : Int) (events : List io_event)
  | retry_timer

/-- Effect of one call. -/
def step (cfg : Config) (k : Kernel) (s : State) : Op → State
  | Op.async_write fd size offset cookie b => async_write cfg k fd size offset cookie b s
  | Op.async_read fd size offset cookie b => async_read cfg k fd size offset cookie b s
  | Op.async_writev fd iovcnt size offset cookie b => async_writev cfg k fd iovcnt size offset cookie b s
  | Op.async_readv fd iovcnt size offset cookie b => async_readv cfg k fd iovcnt size offset cookie b s
  | Op.submit_batch => submit_batch k s
  | Op.handle_completions nevents events => handle_completions cfg k nevents events s
  | Op.retry_timer => retry_timer cfg k s

/-- Effect of a sequence of calls. -/
def run (cfg : Config) (k : Kernel) (s : State) (ops : List Op) : State :=
  ops.foldl (step cfg k) s

/-! ## Projections of the action log -/

/-- Descriptors for which `handle_io_failure` was entered, in order. -/
def failure_calls (tr : List Action) : List iocb_info_t :=
  tr.filterMap (fun a => match a with
    | Action.io_failure d => some d
    | _ => none)

/-- Callback invocations `(res, cookie)`, in order. -/
def callbacks (tr : List Action) : List (Int × Nat) :=
  tr.filterMap (fun a => match a with
    | Action.comp_cb res cookie => some (res, cookie)
    | _ => none)

/-- Descriptors released to the pool, in order. -/
def releases (tr : List Action) : List iocb_info_t :=
  tr.filterMap (fun a => match a with
    | Action.free_iocb d => some d
    | _ => none)

/-- Control blocks handed to the kernel, one entry per `io_submit` call, in order. -/
def submissions (tr : List Action) : List (List iocb_info_t) :=
  tr.filterMap (fun a => match a with
    | Action.io_submit ds _ => some ds
    | _ => none)

/-! ## Auxiliary definitions used in the statements -/

/-- Running the failure path over a list of descriptors, in order. -/
def fail_each (ds : List iocb_info_t) (s : State) : State :=
  ds.foldl (fun st d => (handle_io_failure d st).2) s

/-- Configuration with tight-loop threshold 0 and force-wakeup interval 5. -/
def cfg_threshold_zero : Config :=
  { MAX_OUTSTANDING := 200, max_batch_iocb_count := 4, max_batch_iov_cnt := 4,
    max_resubmit_cnt := 1, force_wakeup_by_time_ms := 5, tight_loop_after_io_max := 0 }

/-- Configuration with tight-loop threshold 2 and force-wakeup interval -1. -/
def cfg_negative_interval : Config :=
  { MAX_OUTSTANDING := 200, max_batch_iocb_count := 4, max_batch_iov_cnt := 4,
    max_resubmit_cnt := 1, force_wakeup_by_time_ms := -1, tight_loop_after_io_max := 2 }

/-- State reached inside one iteration of the `retry_io` loop after the descriptor
`iocb` was popped (leaving `rest` queued), handed to `io_submit` and the counter
was adjusted (source lines 355-357). -/
def retry_attempt (k : Kernel) (iocb : iocb_info_t) (rest : List iocb_info_t) (s : State) : State :=
  inc_submitted_aio (k s.n_io_submit 1).1
    (io_submit k [iocb]
      { s with iocb_retry_list := rest
               metrics := { s.metrics with retry_list_size := s.metrics.retry_list_size - 1 } }).2

/-- Sample configuration: capacity 200, batches of up to 8 descriptors, at most
one resubmission, force-wakeup interval 5, tight-loop threshold 3. -/
def cfg_sample : Config :=
  { MAX_OUTSTANDING := 200, max_batch_iocb_count := 8, max_batch_iov_cnt := 4,
    max_resubmit_cnt := 1, force_wakeup_by_time_ms := 5, tight_loop_after_io_max := 3 }

/-- A 512-byte write at offset 0 on descriptor 3 with the given cookie. -/
def write512 (cookie : Nat) : iocb_info_t := prep_iocb 3 false 512 0 cookie

/-- Kernel that accepts every control block it is given. -/
def kernel_accept_all : Kernel := fun _ nr => ((nr : Int), 0)

/-- Fresh context whose batch accumulator holds three writes (cookies 1, 2, 3). -/
def state_batch3 : State :=
  { init_iface_thread_ctx cfg_sample with cur_iocb_batch := [write512 1, write512 2, write512 3] }

/-- Kernel that accepts one control block per call and leaves `errno` at EAGAIN. -/
def kernel_one_eagain : Kernel := fun _ _ => (1, EAGAIN)

/-- Fresh context whose retry queue holds two writes (cookies 1, 2). -/
def state_retry2 : State :=
  { init_iface_thread_ctx cfg_sample with iocb_retry_list := [write512 1, write512 2] }

/-- Kernel that rejects the first call with EIO_errno and accepts every later one. -/
def kernel_first_eio : Kernel := fun i nr => if i = 0 then (-1, EIO_errno) else ((nr : Int), 0)

/-- Kernel that rejects every call with EAGAIN. -/
def kernel_all_eagain : Kernel := fun _ _ => (-1, EAGAIN)

/-- An action of a retry pass concerns a descriptor of the retry queue `q`: a
single-block submission of it, its entry into the failure path, its release,
or the callback with its cookie. -/
def from_queue (q : List iocb_info_t) : Action → Prop
  | Action.io_submit ds _ => ∃ d, d ∈ q ∧ ds = [d]
  | Action.io_failure d => d ∈ q
  | Action.free_iocb d => d ∈ q
  | Action.comp_cb _ cookie => ∃ d, d ∈ q ∧ d.data = cookie

/-- Completion record for `iocb` reporting `res` bytes and secondary code `res2`. -/
def completion (iocb : iocb_info_t) (res res2 : Int) : io_event :=
  { obj := iocb, res := res, res2 := res2 }

/-- The write `write512 cookie` after `n` resubmissions. -/
def write512_resubmitted (cookie n : Nat) : iocb_info_t :=
  { write512 cookie with resubmit_cnt := n }

/-- Run of C3: one accepted write (cookie 1) followed by two consecutive short
completions (100 of 512 bytes) of that request, every submission accepted. -/
def run_two_short : State :=
  run cfg_sample kernel_accept_all (init_iface_thread_ctx cfg_sample)
    [Op.async_write 3 512 0 1 false,
     Op.handle_completions 1 [completion (write512 1) 100 0],
     Op.handle_completions 1 [completion (write512_resubmitted 1 1) 100 0]]

/-- The run `run_two_short` followed by a third short completion. -/
def run_three_short : State :=
  handle_completions cfg_sample kernel_accept_all 1
    [completion (write512_resubmitted 1 2) 100 0] run_two_short

/-- Calls that fill a context up to one below capacity with directly submitted
writes, then put two writes in the batch accumulator and submit the batch. -/
def ops_overfill (cfg : Config) : List Op :=
  List.replicate (cfg.MAX_OUTSTANDING - 1) (Op.async_write 3 512 0 7 false)
    ++ [Op.async_write 3 512 0 8 true, Op.async_write 3 512 0 9 true, Op.submit_batch]

/-- Kernel that rejects the second `io_submit` call, leaving `errno` at `err`, and
accepts every other call in full. -/
def kernel_reject_second (err : Int) : Kernel :=
  fun i nr => if i = 1 then (-1, err) else ((nr : Int), 0)

/-- Scenario of C11: one 512-byte write at offset 0 with cookie 1 is accepted by the
kernel and then completes with 512 bytes and secondary code 0. -/
def run_write_completed : State :=
  run cfg_sample kernel_accept_all (init_iface_thread_ctx cfg_sample)
    [Op.async_write 3 512 0 1 false,
     Op.handle_completions 1 [completion (write512 1) 512 0]]

/-- Run of C12: one write (cookie 1) is accepted, then completes short (100 of 512
bytes), and the kernel rejects the resubmission leaving `errno` at `err`. -/
def run_short_rejected (err : Int) : State :=
  run cfg_sample (kernel_reject_second err) (init_iface_thread_ctx cfg_sample)
    [Op.async_write 3 512 0 1 false,
     Op.handle_completions 1 [completion (write512 1) 100 0]]

/-- The run `run_short_rejected EAGAIN` followed by the retry timer, whose
submission the kernel accepts. -/
def run_short_requeued : State :=
  retry_timer cfg_sample (kernel_reject_second EAGAIN) (run_short_rejected EAGAIN)

/-! ## Counting requests by cookie -/

/-- Number of descriptors in `ds` whose cookie is `c`. -/
def cookie_count (c : Nat) (ds : List iocb_info_t) : Nat :=
  ds.countP (fun d => decide (d.data = c))

/-- Number of callback invocations with cookie `c` in a log. -/
def cb_count (c : Nat) (tr : List Action) : Nat :=
  ((callbacks tr).map Prod.snd).count c

/-- Number of releases of descriptors with cookie `c` in a log. -/
def release_count (c : Nat) (tr : List Action) : Nat :=
  cookie_count c (releases tr)

/-- Number of requests with cookie `c` that are still pending: waiting in the batch
accumulator, waiting in the retry queue, or held by the kernel. -/
def pending (c : Nat) (s : State) : Nat :=
  cookie_count c s.cur_iocb_batch + cookie_count c s.iocb_retry_list + cookie_count c s.held

/-- Requests with cookie `c`, pending or already reported through the callback. -/
def mass (c : Nat) (s : State) : Nat :=
  cb_count c s.trace + pending c s

/-- Relation between two states `s` and `t` of one execution, for cookie `c`: going
from `s` to `t`, `a` requests left and `b` requests entered the set of pending or
reported requests, and the releases and the callbacks for `c` grew by the same
number. -/
def effect (c a b : Nat) (s t : State) : Prop :=
  mass c t + a = mass c s + b ∧
  release_count c t.trace + cb_count c s.trace = release_count c s.trace + cb_count c t.trace

/-- The kernel never reports more accepted control blocks than it was given. -/
def kernel_ok (k : Kernel) : Prop :=
  ∀ i nr, (k i nr).1 ≤ (nr : Int)

/-- Cookie of the request a call submits, if the call is a submission. -/
def op_cookie : Op → Option Nat
  | Op.async_write _ _ _ cookie _ => some cookie
  | Op.async_read _ _ _ cookie _ => some cookie
  | Op.async_writev _ _ _ _ cookie _ => some cookie
  | Op.async_readv _ _ _ _ cookie _ => some cookie
  | _ => none

/-- Number of requests with cookie `c` accepted by a sequence of calls. -/
def accepted (c : Nat) (ops : List Op) : Nat :=
  (ops.filterMap op_cookie).count c

/-- A call is admissible in a state: the completion records the kernel hands over
are records of descriptors it holds (each held descriptor completes at most
once). -/
def op_ok (s : State) : Op → Prop
  | Op.handle_completions nevents events =>
      List.Subperm ((events.take nevents.toNat).map io_event.obj) s.held
  | _ => True

/-- Every call of the sequence is admissible in the state in which it is made. -/
def ops_ok (cfg : Config) (k : Kernel) : State → List Op → Prop
  | _, [] => True
  | s, op :: ops => op_ok s op ∧ ops_ok cfg k (step cfg k s op) ops

/-- Calls of the scenario of C11: a single 512-byte write with cookie 1, then its
completion with 512 bytes. -/
def ops_write_then_complete : List Op :=
  [Op.async_write 3 512 0 1 false, Op.handle_completions 1 [completion (write512 1) 512 0]]

/-! ## Starvation of a queued request (C1) -/

/-- Kernel that accepts every even-numbered `io_submit` call in full and rejects every
odd-numbered one with -1, leaving `errno` at 5 (input/output error). -/
def kernel_reject_odd : Kernel :=
  fun i nr => if i % 2 = 1 then (-1, EIO_errno) else ((nr : Int), 0)

/-- One round of calls: a 512-byte write with cookie 1 is submitted directly, then its
completion record reports a short transfer (100 of 512 bytes). -/
def ops_leak_round : List Op :=
  [Op.async_write 3 512 0 1 false, Op.handle_completions 1 [completion (write512 1) 100 0]]

/-- The round `ops_leak_round`, `n` times in a row. -/
def ops_leak : Nat → List Op
  | 0 => []
  | n + 1 => ops_leak_round ++ ops_leak n

/-- Calls of the starvation run: as many rounds as the context has capacity, then one
more 512-byte write, with cookie 2. -/
def ops_starve (cfg : Config) : List Op :=
  ops_leak cfg.MAX_OUTSTANDING ++ [Op.async_write 3 512 0 2 false]

/-- State between two rounds of `ops_leak`: the counter stands at `n` although the kernel
holds nothing, nothing is queued or accumulated, the next `io_submit` call has an
even number, and no callback with cookie 2 was made. -/
def leaked (n : Nat) (s : State) : Prop :=
  s.submitted_aio = n ∧ s.held = [] ∧ s.cur_iocb_batch = [] ∧ s.iocb_retry_list = [] ∧
  s.n_io_submit % 2 = 0 ∧ cb_count 2 s.trace = 0

/-- A request with cookie `c` is starved in state `s`: it waits in the retry queue and
has had no callback, while the counter reports no capacity although the kernel
holds nothing and the batch accumulator is empty. -/
def starved (cfg : Config) (c : Nat) (s : State) : Prop :=
  can_submit_aio cfg s = false ∧ s.held = [] ∧ s.cur_iocb_batch = [] ∧
  cb_count c s.trace = 0 ∧ 1 ≤ cookie_count c s.iocb_retry_list

/-- Calls used to exercise a starved context: the retry timer, a poll for completions
that finds none, and a batch submission. -/
def ops_idle : List Op :=
  [Op.retry_timer, Op.handle_completions 0 [], Op.submit_batch]

/-! ## List facts -/

theorem take_succ_eq_append {α : Type} (l : List α) (j : Nat) (h : j < l.length) :
    l.take (j + 1) = l.take j ++ [l[j]] := by
  rw [List.take_succ, List.getElem?_eq_getElem h]; rfl

theorem take_succ_map_singleton {α : Type} (l : List α) (j : Nat) (h : j < l.length) :
    (l.take (j + 1)).map (fun d => [d]) = (l.take j).map (fun d => [d]) ++ [[l[j]]] := by
  rw [take_succ_eq_append l j h, List.map_append]; rfl

theorem drop_take_succ_singleton {α : Type} (l : List α) (j : Nat) (h : j < l.length) :
    (l.take (j + 1)).drop j = [l[j]] := by
  rw [take_succ_eq_append l j h, List.drop_append_eq_append_drop,
    List.drop_of_length_le (by simp)]
  simp [List.length_take, Nat.min_eq_left (le_of_lt h)]

theorem drop_eq_cons_elim {α : Type} (l : List α) (j : Nat) (d : α) (rest : List α)
    (h : l.drop j = d :: rest) :
    ∃ hj : j < l.length, l[j] = d ∧ l.drop (j + 1) = rest := by
  have hjl : j < l.length := by
    by_contra hcon
    rw [List.drop_of_length_le (by omega)] at h
    cases h
  rw [List.drop_eq_getElem_cons hjl] at h
  injection h with h1 h2
  exact ⟨hjl, h1, h2⟩

/-! ## Poll-interval table: lemmas -/

theorem foldl_push_eq_replicate (t : Int) (n a : Nat) (l : List Int) :
    (List.range' a n).foldl (fun tbl _ => tbl ++ [t]) l = l ++ List.replicate n t := by
  induction n generalizing a l with
  | zero => simp
  | succ n ih =>
    rw [List.range'_succ, List.foldl_cons, ih, List.replicate_succ]
    simp

theorem init_poll_interval_table_eq (cfg : Config) :
    init_poll_interval_table cfg
      = List.replicate (max cfg.tight_loop_after_io_max 1) cfg.force_wakeup_by_time_ms ++ [0] := by
  unfold init_poll_interval_table
  simp only [List.headD_cons]
  rw [foldl_push_eq_replicate]
  have h : max cfg.tight_loop_after_io_max 1 = (cfg.tight_loop_after_io_max - 1) + 1 := by omega
  rw [h, List.replicate_succ]
  simp

theorem init_poll_interval_table_length (cfg : Config) :
    (init_poll_interval_table cfg).length = max cfg.tight_loop_after_io_max 1 + 1 := by
  rw [init_poll_interval_table_eq]; simp

theorem poll_interval_lookup_init (cfg : Config) (c : Nat) :
    poll_interval_lookup (init_poll_interval_table cfg) c
      = some (if c < max cfg.tight_loop_after_io_max 1 then cfg.force_wakeup_by_time_ms else 0) := by
  unfold poll_interval_lookup
  rw [init_poll_interval_table_eq]
  simp only [List.length_append, List.length_replicate, List.length_singleton, ge_iff_le]
  by_cases h1 : max cfg.tight_loop_after_io_max 1 + 1 ≤ c
  · have h2 : ¬ c < max cfg.tight_loop_after_io_max 1 := by omega
    simp [h1, h2]
  · rw [if_neg h1]
    by_cases h2 : c < max cfg.tight_loop_after_io_max 1
    · rw [if_pos h2, List.get?_eq_getElem?, List.getElem?_append_left (by simpa using h2)]
      simp [List.getElem?_replicate, h2]
    · rw [if_neg h2]
      have h3 : c = max cfg.tight_loop_after_io_max 1 := by omega
      rw [List.get?_eq_getElem?, List.getElem?_append_right (by simp; omega)]
      simp [h3]

theorem reported_interval_init (cfg : Config) (c : Nat) :
    reported_interval (init_poll_interval_table cfg) c
      = if c < max cfg.tight_loop_after_io_max 1 then cfg.force_wakeup_by_time_ms else 0 := by
  unfold reported_interval
  rw [poll_interval_lookup_init]; rfl

/-! ## Poll-interval controller (C5, C7) -/

/-- C5, as stated, fails: with threshold N = 0 the count 0 is at or above N but
the derived interval is the force-wakeup interval 5, not 0; and with a
negative force-wakeup interval (-1, threshold 2) the interval for count 0 is
smaller than the interval for count 2, so it is not non-increasing. -/
theorem C5_counterexample :
    (0 ≥ cfg_threshold_zero.tight_loop_after_io_max ∧
      (set_poll_interval { init_iface_thread_ctx cfg_threshold_zero with submitted_aio := 0 }).poll_interval = 5) ∧
    ((0 : Nat) ≤ 2 ∧
      (set_poll_interval { init_iface_thread_ctx cfg_negative_interval with submitted_aio := 0 }).poll_interval
        < (set_poll_interval { init_iface_thread_ctx cfg_negative_interval with submitted_aio := 2 }).poll_interval) := by
  decide

/-- C5 (amended): for a non-negative force-wakeup interval and every tight-loop
threshold N, the interval that `inc_submitted_aio` / `dec_submitted_aio` report
(both end in `set_poll_interval`) from the table built by
`init_poll_interval_table` is non-increasing in the outstanding count, and it is
0 for every count at or above `max N 1`. -/
theorem C5_poll_interval_monotone (cfg : Config) (s1 s2 : State)
    (hF : 0 ≤ cfg.force_wakeup_by_time_ms)
    (h1 : s1.s_poll_interval_table = init_poll_interval_table cfg)
    (h2 : s2.s_poll_interval_table = init_poll_interval_table cfg) :
    (s1.submitted_aio ≤ s2.submitted_aio →
      (set_poll_interval s2).poll_interval ≤ (set_poll_interval s1).poll_interval) ∧
    (max cfg.tight_loop_after_io_max 1 ≤ s1.submitted_aio →
      (set_poll_interval s1).poll_interval = 0) := by
  simp only [set_poll_interval, h1, h2, reported_interval_init]
  constructor
  · intro hle
    by_cases ha : s1.submitted_aio < max cfg.tight_loop_after_io_max 1
    · rw [if_pos ha]
      split_ifs
      · exact le_refl _
      · exact hF
    · have hb : ¬ s2.submitted_aio < max cfg.tight_loop_after_io_max 1 := by omega
      rw [if_neg ha, if_neg hb]
  · intro hge
    rw [if_neg (by omega)]

/-- Witness of `C5_poll_interval_monotone`: interval 5, threshold 3, counts 1 and 4. -/
theorem C5_poll_interval_monotone_witness :
    ((1 : Nat) ≤ 4 →
      (set_poll_interval { init_iface_thread_ctx ⟨200, 4, 4, 1, 5, 3⟩ with submitted_aio := 4 }).poll_interval
        ≤ (set_poll_interval { init_iface_thread_ctx ⟨200, 4, 4, 1, 5, 3⟩ with submitted_aio := 1 }).poll_interval) ∧
    (max 3 1 ≤ 1 →
      (set_poll_interval { init_iface_thread_ctx ⟨200, 4, 4, 1, 5, 3⟩ with submitted_aio := 1 }).poll_interval = 0) :=
  C5_poll_interval_monotone ⟨200, 4, 4, 1, 5, 3⟩
    { init_iface_thread_ctx ⟨200, 4, 4, 1, 5, 3⟩ with submitted_aio := 1 }
    { init_iface_thread_ctx ⟨200, 4, 4, 1, 5, 3⟩ with submitted_aio := 4 }
    (by decide) rfl rfl

/-- C7, as stated, fails: with threshold N = 0 and force-wakeup interval 5 the
count 0 satisfies `c >= N`, yet the interval reported after `inc_submitted_aio(0)`
on a fresh context is 5 and not 0. -/
theorem C7_counterexample :
    ¬ (∀ (cfg : Config) (s : State), s.s_poll_interval_table = init_poll_interval_table cfg →
        (inc_submitted_aio 0 s).poll_interval
          = if (inc_submitted_aio 0 s).submitted_aio < cfg.tight_loop_after_io_max
            then cfg.force_wakeup_by_time_ms else 0) := by
  intro h
  have h0 := h cfg_threshold_zero (init_iface_thread_ctx cfg_threshold_zero) rfl
  revert h0
  decide

/-- C7 (amended): for every force-wakeup interval F, threshold N and state whose
table was built by `init_poll_interval_table`, the guarded read is inside the
table for every count (it never yields `none`) and gives F for counts below
`max N 1` and 0 from `max N 1` on; the interval reported to the reactor by
`inc_submitted_aio` (non-negative argument) and by `dec_submitted_aio` is that
value at the new count. -/
theorem C7_poll_interval_table (cfg : Config) (s : State) (count : Int) (c : Nat)
    (ht : s.s_poll_interval_table = init_poll_interval_table cfg) (hc : 0 ≤ count) :
    poll_interval_lookup (init_poll_interval_table cfg) c
      = some (if c < max cfg.tight_loop_after_io_max 1 then cfg.force_wakeup_by_time_ms else 0) ∧
    (inc_submitted_aio count s).poll_interval
      = (if (inc_submitted_aio count s).submitted_aio < max cfg.tight_loop_after_io_max 1
          then cfg.force_wakeup_by_time_ms else 0) ∧
    (dec_submitted_aio s).poll_interval
      = (if (dec_submitted_aio s).submitted_aio < max cfg.tight_loop_after_io_max 1
          then cfg.force_wakeup_by_time_ms else 0) := by
  refine ⟨poll_interval_lookup_init cfg c, ?_, ?_⟩
  · have hn : ¬ count < 0 := by omega
    simp only [inc_submitted_aio, if_neg hn, set_poll_interval, ht, reported_interval_init]
  · simp only [dec_submitted_aio, set_poll_interval, ht, reported_interval_init]

/-- Witness of `C7_poll_interval_table`: F = 5, N = 3, fresh context, increment 1, count 2. -/
theorem C7_poll_interval_table_witness :
    poll_interval_lookup (init_poll_interval_table ⟨200, 4, 4, 1, 5, 3⟩) 2
      = some (if 2 < max 3 1 then 5 else 0) ∧
    (inc_submitted_aio 1 (init_iface_thread_ctx ⟨200, 4, 4, 1, 5, 3⟩)).poll_interval
      = (if (inc_submitted_aio 1 (init_iface_thread_ctx ⟨200, 4, 4, 1, 5, 3⟩)).submitted_aio < max 3 1
          then 5 else 0) ∧
    (dec_submitted_aio (init_iface_thread_ctx ⟨200, 4, 4, 1, 5, 3⟩)).poll_interval
      = (if (dec_submitted_aio (init_iface_thread_ctx ⟨200, 4, 4, 1, 5, 3⟩)).submitted_aio < max 3 1
          then 5 else 0) :=
  C7_poll_interval_table ⟨200, 4, 4, 1, 5, 3⟩ (init_iface_thread_ctx ⟨200, 4, 4, 1, 5, 3⟩) 1 2 rfl (by decide)

/-! ## Submission rejection (C8) -/

/-- C8: `handle_io_failure` returns true exactly when `errno` is EAGAIN. In that
case the descriptor is appended once to the retry queue and nothing is
released or reported (the only logged action is the entry into the function).
For every other value of `errno` the retry queue is unchanged, the descriptor
is released and the callback is invoked exactly once with that `errno` and
the descriptor's cookie. The kernel-held set and the outstanding counter are
untouched either way. -/
theorem C8_handle_io_failure (iocb : iocb_info_t) (s : State) :
    (handle_io_failure iocb s).1 = decide (s.errno = EAGAIN) ∧
    (handle_io_failure iocb s).2.iocb_retry_list
      = (if s.errno = EAGAIN then s.iocb_retry_list ++ [iocb] else s.iocb_retry_list) ∧
    (handle_io_failure iocb s).2.trace
      = s.trace ++ (if s.errno = EAGAIN then [Action.io_failure iocb]
          else [Action.io_failure iocb, Action.free_iocb iocb, Action.comp_cb s.errno iocb.data]) ∧
    (handle_io_failure iocb s).2.held = s.held ∧
    (handle_io_failure iocb s).2.submitted_aio = s.submitted_aio := by
  unfold handle_io_failure
  by_cases h : s.errno = EAGAIN
  · simp [h, push_retry_list]
  · simp [h, free_iocb, comp_cb]

/-! ## Failure path: frame lemmas -/

theorem failure_calls_append (a b : List Action) :
    failure_calls (a ++ b) = failure_calls a ++ failure_calls b := by
  simp [failure_calls, List.filterMap_append]

theorem callbacks_append (a b : List Action) :
    callbacks (a ++ b) = callbacks a ++ callbacks b := by
  simp [callbacks, List.filterMap_append]

theorem releases_append (a b : List Action) :
    releases (a ++ b) = releases a ++ releases b := by
  simp [releases, List.filterMap_append]

theorem submissions_append (a b : List Action) :
    submissions (a ++ b) = submissions a ++ submissions b := by
  simp [submissions, List.filterMap_append]

theorem handle_io_failure_errno (d : iocb_info_t) (s : State) :
    (handle_io_failure d s).2.errno = s.errno := by
  unfold handle_io_failure
  by_cases h : s.errno = EAGAIN <;> simp [h, push_retry_list, free_iocb, comp_cb]

theorem handle_io_failure_frame (d : iocb_info_t) (s : State) :
    (handle_io_failure d s).2.held = s.held ∧
    (handle_io_failure d s).2.submitted_aio = s.submitted_aio ∧
    (handle_io_failure d s).2.n_io_submit = s.n_io_submit ∧
    (handle_io_failure d s).2.cur_iocb_batch = s.cur_iocb_batch ∧
    (handle_io_failure d s).2.s_poll_interval_table = s.s_poll_interval_table ∧
    (handle_io_failure d s).2.poll_interval = s.poll_interval ∧
    (handle_io_failure d s).2.metrics.iface_io_actual_count = s.metrics.iface_io_actual_count ∧
    (handle_io_failure d s).2.metrics.iface_io_batch_count = s.metrics.iface_io_batch_count ∧
    (handle_io_failure d s).2.metrics.completion_errors = s.metrics.completion_errors := by
  unfold handle_io_failure
  by_cases h : s.errno = EAGAIN
  · simp [h, push_retry_list]
  · by_cases hr : d.is_read <;> simp [h, hr, free_iocb, comp_cb]

theorem handle_io_failure_retry_list (d : iocb_info_t) (s : State) :
    (handle_io_failure d s).2.iocb_retry_list
      = if s.errno = EAGAIN then s.iocb_retry_list ++ [d] else s.iocb_retry_list := by
  unfold handle_io_failure
  by_cases h : s.errno = EAGAIN <;> simp [h, push_retry_list, free_iocb, comp_cb]

theorem handle_io_failure_trace (d : iocb_info_t) (s : State) :
    (handle_io_failure d s).2.trace
      = s.trace ++ (if s.errno = EAGAIN then [Action.io_failure d]
          else [Action.io_failure d, Action.free_iocb d, Action.comp_cb s.errno d.data]) := by
  unfold handle_io_failure
  by_cases h : s.errno = EAGAIN <;> simp [h, push_retry_list, free_iocb, comp_cb]

theorem fail_each_spec (ds : List iocb_info_t) (s : State) :
    (fail_each ds s).errno = s.errno ∧
    (fail_each ds s).held = s.held ∧
    (fail_each ds s).submitted_aio = s.submitted_aio ∧
    (fail_each ds s).n_io_submit = s.n_io_submit ∧
    (fail_each ds s).cur_iocb_batch = s.cur_iocb_batch ∧
    (fail_each ds s).metrics.iface_io_actual_count = s.metrics.iface_io_actual_count ∧
    (fail_each ds s).metrics.iface_io_batch_count = s.metrics.iface_io_batch_count ∧
    failure_calls (fail_each ds s).trace = failure_calls s.trace ++ ds ∧
    submissions (fail_each ds s).trace = submissions s.trace ∧
    (fail_each ds s).iocb_retry_list
      = (if s.errno = EAGAIN then s.iocb_retry_list ++ ds else s.iocb_retry_list) ∧
    callbacks (fail_each ds s).trace
      = callbacks s.trace ++ (if s.errno = EAGAIN then [] else ds.map (fun d => (s.errno, d.data))) ∧
    releases (fail_each ds s).trace
      = releases s.trace ++ (if s.errno = EAGAIN then [] else ds) := by
  induction ds generalizing s with
  | nil => simp [fail_each]
  | cons d ds ih =>
    have hstep : fail_each (d :: ds) s = fail_each ds (handle_io_failure d s).2 := rfl
    rw [hstep]
    obtain ⟨h1, h2, h3, h4, h5, h6, h7, h8, h9, h10, h11, h12⟩ := ih (handle_io_failure d s).2
    obtain ⟨f1, f2, f3, f4, f5, f6, f7, f8, f9⟩ := handle_io_failure_frame d s
    have fe := handle_io_failure_errno d s
    have ft := handle_io_failure_trace d s
    have fr := handle_io_failure_retry_list d s
    rw [h1, h2, h3, h4, h5, h6, h7, h8, h9, h10, h11, h12, fe, f1, f2, f3, f4, f7, f8, ft, fr]
    by_cases h : s.errno = EAGAIN
    · simp [h, failure_calls_append, callbacks_append, releases_append, submissions_append,
        failure_calls, callbacks, releases, submissions]
    · simp [h, failure_calls_append, callbacks_append, releases_append, submissions_append,
        failure_calls, callbacks, releases, submissions]

theorem submit_batch_loop_eq (ibatch : List iocb_info_t) (n a : Nat) (s : State)
    (h : a + n ≤ ibatch.length) :
    (List.range' a n).foldl (submit_batch_body ibatch) s = fail_each ((ibatch.drop a).take n) s := by
  induction n generalizing a s with
  | zero => simp [fail_each]
  | succ n ih =>
    have ha : a < ibatch.length := by omega
    rw [List.range'_succ, List.foldl_cons, List.drop_eq_getElem_cons ha, List.take_succ_cons]
    have hb : submit_batch_body ibatch s a = (handle_io_failure ibatch[a] s).2 := by
      simp [submit_batch_body, List.get?_eq_getElem?, List.getElem?_eq_getElem ha]
    rw [hb, ih (a + 1) _ (by omega)]
    rfl

theorem inc_submitted_aio_frame (count : Int) (s : State) :
    (inc_submitted_aio count s).errno = s.errno ∧
    (inc_submitted_aio count s).held = s.held ∧
    (inc_submitted_aio count s).trace = s.trace ∧
    (inc_submitted_aio count s).n_io_submit = s.n_io_submit ∧
    (inc_submitted_aio count s).cur_iocb_batch = s.cur_iocb_batch ∧
    (inc_submitted_aio count s).iocb_retry_list = s.iocb_retry_list ∧
    (inc_submitted_aio count s).metrics = s.metrics ∧
    (inc_submitted_aio count s).s_poll_interval_table = s.s_poll_interval_table ∧
    (inc_submitted_aio count s).timer_set = s.timer_set := by
  unfold inc_submitted_aio
  by_cases h : count < 0 <;> simp [h, set_poll_interval]

theorem inc_submitted_aio_count (count : Int) (s : State) :
    (inc_submitted_aio count s).submitted_aio
      = if count < 0 then s.submitted_aio else (s.submitted_aio + count.toNat) % UINT64_SIZE := by
  unfold inc_submitted_aio
  by_cases h : count < 0 <;> simp [h, set_poll_interval]

/-! ## Batch submission (C4) -/

/-- Effect of `submit_batch` on a non-empty batch when the kernel returns at most the
batch size. -/
theorem submit_batch_spec (k : Kernel) (s : State)
    (hne : s.cur_iocb_batch ≠ [])
    (hr : (k s.n_io_submit s.cur_iocb_batch.length).1 ≤ s.cur_iocb_batch.length) :
    (submit_batch k s).submitted_aio
      = (s.submitted_aio + (max (k s.n_io_submit s.cur_iocb_batch.length).1 0).toNat) % UINT64_SIZE ∧
    (submit_batch k s).metrics.iface_io_actual_count
      = s.metrics.iface_io_actual_count + (max (k s.n_io_submit s.cur_iocb_batch.length).1 0).toNat ∧
    (submit_batch k s).held
      = s.held ++ s.cur_iocb_batch.take (max (k s.n_io_submit s.cur_iocb_batch.length).1 0).toNat ∧
    submissions (submit_batch k s).trace = submissions s.trace ++ [s.cur_iocb_batch] ∧
    failure_calls (submit_batch k s).trace
      = failure_calls s.trace
        ++ s.cur_iocb_batch.drop (max (k s.n_io_submit s.cur_iocb_batch.length).1 0).toNat ∧
    (max (k s.n_io_submit s.cur_iocb_batch.length).1 0).toNat
        + (s.cur_iocb_batch.drop (max (k s.n_io_submit s.cur_iocb_batch.length).1 0).toNat).length
      = s.cur_iocb_batch.length ∧
    (submit_batch k s).iocb_retry_list
      = (if (k s.n_io_submit s.cur_iocb_batch.length).2 = EAGAIN
          then s.iocb_retry_list
            ++ s.cur_iocb_batch.drop (max (k s.n_io_submit s.cur_iocb_batch.length).1 0).toNat
          else s.iocb_retry_list) ∧
    callbacks (submit_batch k s).trace
      = callbacks s.trace ++
        (if (k s.n_io_submit s.cur_iocb_batch.length).2 = EAGAIN then []
          else (s.cur_iocb_batch.drop (max (k s.n_io_submit s.cur_iocb_batch.length).1 0).toNat).map
            (fun d => ((k s.n_io_submit s.cur_iocb_batch.length).2, d.data))) ∧
    (submit_batch k s).cur_iocb_batch = [] := by
  have hlen : s.cur_iocb_batch.length ≠ 0 := by
    intro h; exact hne (List.length_eq_zero.mp h)
  generalize hrv : k s.n_io_submit s.cur_iocb_batch.length = rv at hr ⊢
  have hn : (if rv.1 < 0 then (0 : Int) else rv.1) = max rv.1 0 := by
    split_ifs with h
    · exact (max_eq_right (le_of_lt h)).symm
    · exact (max_eq_left (not_lt.mp h)).symm
  have hle : (max rv.1 0).toNat ≤ s.cur_iocb_batch.length := by
    have : max rv.1 0 ≤ (s.cur_iocb_batch.length : Int) := max_le hr (by positivity)
    omega
  have htake : rv.1.toNat = (max rv.1 0).toNat := by
    rcases le_total rv.1 0 with h | h
    · rw [max_eq_right h]; simp [Int.toNat_eq_zero.mpr h]
    · rw [max_eq_left h]
  have hnn : ¬ (max rv.1 0 < 0) := not_lt.mpr (le_max_right _ _)
  unfold submit_batch
  simp only [hlen, if_false, io_submit, hrv, hn]
  rw [submit_batch_loop_eq _ _ _ _ (by omega)]
  have hd : List.take (s.cur_iocb_batch.length - (max rv.1 0).toNat)
      (List.drop (max rv.1 0).toNat s.cur_iocb_batch)
      = List.drop (max rv.1 0).toNat s.cur_iocb_batch := by
    apply List.take_of_length_le
    simp
  rw [hd]
  generalize hst : inc_submitted_aio (max rv.1 0) _ = st
  have e1 : st.errno = rv.2 := by rw [← hst]; exact (inc_submitted_aio_frame _ _).1
  have e2 : st.held = s.held ++ List.take rv.1.toNat s.cur_iocb_batch := by
    rw [← hst]; exact (inc_submitted_aio_frame _ _).2.1
  have e3 : st.trace = s.trace ++ [Action.io_submit s.cur_iocb_batch rv.1] := by
    rw [← hst]; exact (inc_submitted_aio_frame _ _).2.2.1
  have e5 : st.cur_iocb_batch = [] := by
    rw [← hst]; exact (inc_submitted_aio_frame _ _).2.2.2.2.1
  have e6 : st.iocb_retry_list = s.iocb_retry_list := by
    rw [← hst]; exact (inc_submitted_aio_frame _ _).2.2.2.2.2.1
  have e7 : st.metrics.iface_io_actual_count
      = s.metrics.iface_io_actual_count + (max rv.1 0).toNat := by
    rw [← hst, (inc_submitted_aio_frame _ _).2.2.2.2.2.2.1]
  have e8 : st.submitted_aio = (s.submitted_aio + (max rv.1 0).toNat) % UINT64_SIZE := by
    rw [← hst, inc_submitted_aio_count, if_neg hnn]
  obtain ⟨h1, h2, h3, h4, h5, h6, h7, h8, h9, h10, h11, h12⟩ :=
    fail_each_spec (List.drop (max rv.1 0).toNat s.cur_iocb_batch) st
  rw [h3, h2, h6, h8, h9, h10, h11, h5, e1, e2, e3, e5, e6, e7, e8, htake]
  simp only [submissions_append, failure_calls_append, callbacks_append]
  refine ⟨trivial, trivial, trivial, ?_, ?_, ?_, trivial, ?_, trivial⟩
  · simp [submissions]
  · simp [failure_calls]
  · simp; omega
  · simp [callbacks]

/-- C4: for a non-empty batch of N descriptors and a kernel return value r <= N of
the single `io_submit` call, `submit_batch` makes exactly one kernel call with the
whole batch, adds `max r 0` to the outstanding counter (modulo 2^64) and to the
actual-submission metric, the kernel holds the first `max r 0` descriptors, and
`handle_io_failure` is entered exactly once for each descriptor at positions
`max r 0 .. N-1`, in order, and for no other; the two groups add up to N, the
failure-routed ones are all queued for retry (errno EAGAIN) or all reported
through the callback with errno, and the accumulator is left empty. -/
theorem C4_submit_batch (k : Kernel) (s : State)
    (hne : s.cur_iocb_batch ≠ [])
    (hr : (k s.n_io_submit s.cur_iocb_batch.length).1 ≤ s.cur_iocb_batch.length) :
    (submit_batch k s).submitted_aio
      = (s.submitted_aio + (max (k s.n_io_submit s.cur_iocb_batch.length).1 0).toNat) % UINT64_SIZE ∧
    (submit_batch k s).metrics.iface_io_actual_count
      = s.metrics.iface_io_actual_count + (max (k s.n_io_submit s.cur_iocb_batch.length).1 0).toNat ∧
    (submit_batch k s).held
      = s.held ++ s.cur_iocb_batch.take (max (k s.n_io_submit s.cur_iocb_batch.length).1 0).toNat ∧
    submissions (submit_batch k s).trace = submissions s.trace ++ [s.cur_iocb_batch] ∧
    failure_calls (submit_batch k s).trace
      = failure_calls s.trace
        ++ s.cur_iocb_batch.drop (max (k s.n_io_submit s.cur_iocb_batch.length).1 0).toNat ∧
    (max (k s.n_io_submit s.cur_iocb_batch.length).1 0).toNat
        + (s.cur_iocb_batch.drop (max (k s.n_io_submit s.cur_iocb_batch.length).1 0).toNat).length
      = s.cur_iocb_batch.length ∧
    (submit_batch k s).iocb_retry_list
      = (if (k s.n_io_submit s.cur_iocb_batch.length).2 = EAGAIN
          then s.iocb_retry_list
            ++ s.cur_iocb_batch.drop (max (k s.n_io_submit s.cur_iocb_batch.length).1 0).toNat
          else s.iocb_retry_list) ∧
    callbacks (submit_batch k s).trace
      = callbacks s.trace ++
        (if (k s.n_io_submit s.cur_iocb_batch.length).2 = EAGAIN then []
          else (s.cur_iocb_batch.drop (max (k s.n_io_submit s.cur_iocb_batch.length).1 0).toNat).map
            (fun d => ((k s.n_io_submit s.cur_iocb_batch.length).2, d.data))) ∧
    (submit_batch k s).cur_iocb_batch = [] :=
  submit_batch_spec k s hne hr

/-- Witness of `C4_submit_batch`: a batch of three writes of which the kernel accepts
the first and leaves `errno` at EAGAIN. -/
theorem C4_submit_batch_witness :
    state_batch3.cur_iocb_batch ≠ [] ∧
    (submit_batch kernel_one_eagain state_batch3).submitted_aio = 1 ∧
    (submit_batch kernel_one_eagain state_batch3).held = [write512 1] ∧
    failure_calls (submit_batch kernel_one_eagain state_batch3).trace = [write512 2, write512 3] :=
  ⟨by decide,
   (C4_submit_batch kernel_one_eagain state_batch3 (by decide) (by decide)).1,
   (C4_submit_batch kernel_one_eagain state_batch3 (by decide) (by decide)).2.2.1,
   (C4_submit_batch kernel_one_eagain state_batch3 (by decide) (by decide)).2.2.2.2.1⟩

/-! ## Retry queue drain -/

theorem retry_io_loop_nil (cfg : Config) (k : Kernel) (fuel : Nat) (s : State)
    (h : s.iocb_retry_list = []) :
    retry_io_loop cfg k (fuel + 1) s = some s := by
  unfold retry_io_loop
  simp [h]

theorem retry_io_loop_full (cfg : Config) (k : Kernel) (fuel : Nat) (s : State)
    (h : can_submit_aio cfg s = false) :
    retry_io_loop cfg k (fuel + 1) s = some s := by
  unfold retry_io_loop
  simp [h]

theorem retry_io_loop_cons (cfg : Config) (k : Kernel) (fuel : Nat) (s : State)
    (d : iocb_info_t) (rest : List iocb_info_t)
    (hc : can_submit_aio cfg s = true) (hq : s.iocb_retry_list = d :: rest) :
    retry_io_loop cfg k (fuel + 1) s =
      if (k s.n_io_submit 1).1 ≠ 1 then
        if (k s.n_io_submit 1).2 = EAGAIN
        then some (handle_io_failure d (retry_attempt k d rest s)).2
        else retry_io_loop cfg k fuel (handle_io_failure d (retry_attempt k d rest s)).2
      else retry_io_loop cfg k fuel (retry_attempt k d rest s) := by
  have he : (retry_attempt k d rest s).errno = (k s.n_io_submit 1).2 := by
    unfold retry_attempt
    rw [(inc_submitted_aio_frame _ _).1]
    rfl
  have hf : (handle_io_failure d (retry_attempt k d rest s)).1
      = decide ((k s.n_io_submit 1).2 = EAGAIN) := by
    unfold handle_io_failure
    by_cases h : (k s.n_io_submit 1).2 = EAGAIN <;> simp [h, he]
  conv_lhs => unfold retry_io_loop
  simp only [hc, if_true, hq]
  by_cases h1 : (k s.n_io_submit 1).1 = 1
  · simp only [io_submit, List.length_singleton, h1, ne_eq, not_true_eq_false, if_false]
    simp [retry_attempt, io_submit, h1]
  · have h1' : (io_submit k [d]
        { s with iocb_retry_list := rest
                 metrics := { s.metrics with retry_list_size := s.metrics.retry_list_size - 1 } }).1 ≠ 1 := h1
    simp only [h1', ne_eq, not_false_eq_true, if_true, h1]
    have hs : inc_submitted_aio (io_submit k [d]
        { s with iocb_retry_list := rest
                 metrics := { s.metrics with retry_list_size := s.metrics.retry_list_size - 1 } }).1
        (io_submit k [d]
        { s with iocb_retry_list := rest
                 metrics := { s.metrics with retry_list_size := s.metrics.retry_list_size - 1 } }).2
        = retry_attempt k d rest s := rfl
    rw [hs, hf]
    by_cases h2 : (k s.n_io_submit 1).2 = EAGAIN <;> simp [h2]

theorem retry_attempt_frame (k : Kernel) (d : iocb_info_t) (rest : List iocb_info_t) (s : State) :
    (retry_attempt k d rest s).iocb_retry_list = rest ∧
    (retry_attempt k d rest s).trace = s.trace ++ [Action.io_submit [d] (k s.n_io_submit 1).1] ∧
    (retry_attempt k d rest s).held = s.held ++ [d].take (k s.n_io_submit 1).1.toNat ∧
    (retry_attempt k d rest s).n_io_submit = s.n_io_submit + 1 ∧
    (retry_attempt k d rest s).cur_iocb_batch = s.cur_iocb_batch ∧
    (retry_attempt k d rest s).errno = (k s.n_io_submit 1).2 ∧
    (retry_attempt k d rest s).s_poll_interval_table = s.s_poll_interval_table ∧
    (retry_attempt k d rest s).submitted_aio
      = (if (k s.n_io_submit 1).1 < 0 then s.submitted_aio
          else (s.submitted_aio + (k s.n_io_submit 1).1.toNat) % UINT64_SIZE) := by
  unfold retry_attempt
  obtain ⟨i1, i2, i3, i4, i5, i6, i7, i8, i9⟩ := inc_submitted_aio_frame (k s.n_io_submit 1).1
    (io_submit k [d]
      { s with iocb_retry_list := rest
               metrics := { s.metrics with retry_list_size := s.metrics.retry_list_size - 1 } }).2
  rw [i1, i2, i3, i4, i5, i6, i8, inc_submitted_aio_count]
  simp [io_submit]

theorem handle_io_failure_submissions (d : iocb_info_t) (s : State) :
    submissions (handle_io_failure d s).2.trace = submissions s.trace := by
  rw [handle_io_failure_trace, submissions_append]
  by_cases h : s.errno = EAGAIN <;> simp [h, submissions]

/-- Loop rule for `retry_io`: a loop-head invariant `P` that is re-established by
every continuing iteration, and a postcondition `Q` that holds at each of the
three exits (queue empty, no capacity, EAGAIN), give `Q` for the result. The
proof also shows that the iteration bound used by `retry_io` is never reached. -/
theorem retry_io_loop_rule (cfg : Config) (k : Kernel) (P Q : State → Prop)
    (h_empty : ∀ s, P s → s.iocb_retry_list = [] → Q s)
    (h_full : ∀ s, P s → can_submit_aio cfg s = false → Q s)
    (h_ok : ∀ s d rest, P s → can_submit_aio cfg s = true → s.iocb_retry_list = d :: rest →
      (k s.n_io_submit 1).1 = 1 → P (retry_attempt k d rest s))
    (h_perm : ∀ s d rest, P s → can_submit_aio cfg s = true → s.iocb_retry_list = d :: rest →
      (k s.n_io_submit 1).1 ≠ 1 → (k s.n_io_submit 1).2 ≠ EAGAIN →
      P (handle_io_failure d (retry_attempt k d rest s)).2)
    (h_again : ∀ s d rest, P s → can_submit_aio cfg s = true → s.iocb_retry_list = d :: rest →
      (k s.n_io_submit 1).1 ≠ 1 → (k s.n_io_submit 1).2 = EAGAIN →
      Q (handle_io_failure d (retry_attempt k d rest s)).2)
    (fuel : Nat) (s : State) (hfuel : s.iocb_retry_list.length < fuel) (hP : P s) :
    ∃ s', retry_io_loop cfg k fuel s = some s' ∧ Q s' := by
  induction fuel generalizing s with
  | zero => omega
  | succ fuel ih =>
    by_cases hc : can_submit_aio cfg s = true
    · cases hq : s.iocb_retry_list with
      | nil => exact ⟨s, retry_io_loop_nil cfg k fuel s hq, h_empty s hP hq⟩
      | cons d rest =>
        rw [retry_io_loop_cons cfg k fuel s d rest hc hq]
        have hlen : rest.length < fuel := by
          rw [hq] at hfuel; simp at hfuel; omega
        obtain ⟨a1, -, -, -, -, a6, -, -⟩ := retry_attempt_frame k d rest s
        by_cases h1 : (k s.n_io_submit 1).1 = 1
        · simp only [h1, ne_eq, not_true_eq_false, if_false]
          exact ih _ (by rw [a1]; exact hlen) (h_ok s d rest hP hc hq h1)
        · simp only [h1, ne_eq, not_false_eq_true, if_true]
          by_cases h2 : (k s.n_io_submit 1).2 = EAGAIN
          · simp only [h2, if_true]
            exact ⟨_, rfl, h_again s d rest hP hc hq h1 h2⟩
          · simp only [h2, if_false]
            refine ih _ ?_ (h_perm s d rest hP hc hq h1 h2)
            rw [handle_io_failure_retry_list, a6, if_neg h2, a1]
            exact hlen
    · have hc' : can_submit_aio cfg s = false := by simpa using hc
      exact ⟨s, retry_io_loop_full cfg k fuel s hc', h_full s hP hc'⟩

/-- The loop of `retry_io` exits within `queue length + 1` iterations. -/
theorem retry_io_loop_terminates (cfg : Config) (k : Kernel) (s : State) :
    ∃ s', retry_io_loop cfg k (s.iocb_retry_list.length + 1) s = some s' ∧ retry_io cfg k s = s' := by
  obtain ⟨s', h, -⟩ := retry_io_loop_rule cfg k (fun _ => True) (fun _ => True)
    (fun _ _ _ => trivial) (fun _ _ _ => trivial) (fun _ _ _ _ _ _ _ => trivial)
    (fun _ _ _ _ _ _ _ _ => trivial) (fun _ _ _ _ _ _ _ _ => trivial)
    (s.iocb_retry_list.length + 1) s (by omega) trivial
  exact ⟨s', h, by simp [retry_io, h]⟩

/-- Hoare-style rule for `retry_io` itself. -/
theorem retry_io_rule (cfg : Config) (k : Kernel) (P Q : State → Prop)
    (h_empty : ∀ s, P s → s.iocb_retry_list = [] → Q s)
    (h_full : ∀ s, P s → can_submit_aio cfg s = false → Q s)
    (h_ok : ∀ s d rest, P s → can_submit_aio cfg s = true → s.iocb_retry_list = d :: rest →
      (k s.n_io_submit 1).1 = 1 → P (retry_attempt k d rest s))
    (h_perm : ∀ s d rest, P s → can_submit_aio cfg s = true → s.iocb_retry_list = d :: rest →
      (k s.n_io_submit 1).1 ≠ 1 → (k s.n_io_submit 1).2 ≠ EAGAIN →
      P (handle_io_failure d (retry_attempt k d rest s)).2)
    (h_again : ∀ s d rest, P s → can_submit_aio cfg s = true → s.iocb_retry_list = d :: rest →
      (k s.n_io_submit 1).1 ≠ 1 → (k s.n_io_submit 1).2 = EAGAIN →
      Q (handle_io_failure d (retry_attempt k d rest s)).2)
    (s : State) (hP : P s) : Q (retry_io cfg k s) := by
  obtain ⟨s', h, hQ⟩ := retry_io_loop_rule cfg k P Q h_empty h_full h_ok h_perm h_again
    (s.iocb_retry_list.length + 1) s (by omega) hP
  have : retry_io cfg k s = s' := by simp [retry_io, h]
  rw [this]; exact hQ

/-! ## Retry order (C6) -/

/-- C6: one `retry_io` pass over a retry queue `d1 .. dk` makes its kernel
submissions for a prefix `d1 .. dj` of the queue, one control block per call,
in queue order and each position once. Afterwards the queue holds the
descriptors behind that prefix, followed by `dj` itself when its submission
was answered with EAGAIN. -/
theorem C6_retry_io_order (cfg : Config) (k : Kernel) (s : State) :
    ∃ j, j ≤ s.iocb_retry_list.length ∧
      submissions (retry_io cfg k s).trace
        = submissions s.trace ++ (s.iocb_retry_list.take j).map (fun d => [d]) ∧
      ((retry_io cfg k s).iocb_retry_list = s.iocb_retry_list.drop j ∨
        (0 < j ∧ (retry_io cfg k s).iocb_retry_list
          = s.iocb_retry_list.drop j ++ (s.iocb_retry_list.take j).drop (j - 1))) := by
  apply retry_io_rule cfg k
    (fun t => ∃ j, j ≤ s.iocb_retry_list.length ∧ t.iocb_retry_list = s.iocb_retry_list.drop j ∧
      submissions t.trace = submissions s.trace ++ (s.iocb_retry_list.take j).map (fun d => [d]))
    (fun t => ∃ j, j ≤ s.iocb_retry_list.length ∧
      submissions t.trace = submissions s.trace ++ (s.iocb_retry_list.take j).map (fun d => [d]) ∧
      (t.iocb_retry_list = s.iocb_retry_list.drop j ∨
        (0 < j ∧ t.iocb_retry_list
          = s.iocb_retry_list.drop j ++ (s.iocb_retry_list.take j).drop (j - 1))))
  · rintro t ⟨j, hj, hq, hs⟩ _
    exact ⟨j, hj, hs, Or.inl hq⟩
  · rintro t ⟨j, hj, hq, hs⟩ _
    exact ⟨j, hj, hs, Or.inl hq⟩
  · rintro t d rest ⟨j, hj, hq, hs⟩ _ hd _
    rw [hq] at hd
    obtain ⟨hjl, hd1, hd2⟩ := drop_eq_cons_elim _ _ _ _ hd
    subst hd1; subst hd2
    obtain ⟨a1, a2, -⟩ := retry_attempt_frame k s.iocb_retry_list[j]
      (s.iocb_retry_list.drop (j + 1)) t
    refine ⟨j + 1, hjl, a1, ?_⟩
    rw [a2, submissions_append, hs, take_succ_map_singleton _ _ hjl, List.append_assoc]
    rfl
  · rintro t d rest ⟨j, hj, hq, hs⟩ _ hd _ h2
    rw [hq] at hd
    obtain ⟨hjl, hd1, hd2⟩ := drop_eq_cons_elim _ _ _ _ hd
    subst hd1; subst hd2
    obtain ⟨a1, a2, -, -, -, a6, -⟩ := retry_attempt_frame k s.iocb_retry_list[j]
      (s.iocb_retry_list.drop (j + 1)) t
    refine ⟨j + 1, hjl, by rw [handle_io_failure_retry_list, a6, if_neg h2, a1], ?_⟩
    rw [handle_io_failure_submissions, a2, submissions_append, hs,
      take_succ_map_singleton _ _ hjl, List.append_assoc]
    rfl
  · rintro t d rest ⟨j, hj, hq, hs⟩ _ hd _ h2
    rw [hq] at hd
    obtain ⟨hjl, hd1, hd2⟩ := drop_eq_cons_elim _ _ _ _ hd
    subst hd1; subst hd2
    obtain ⟨a1, a2, -, -, -, a6, -⟩ := retry_attempt_frame k s.iocb_retry_list[j]
      (s.iocb_retry_list.drop (j + 1)) t
    refine ⟨j + 1, hjl, ?_, Or.inr ⟨by omega, ?_⟩⟩
    · rw [handle_io_failure_submissions, a2, submissions_append, hs,
        take_succ_map_singleton _ _ hjl, List.append_assoc]
      rfl
    · rw [handle_io_failure_retry_list, a6, if_pos h2, a1, Nat.add_sub_cancel,
        drop_take_succ_singleton _ _ hjl]
  · exact ⟨0, by omega, by simp, by simp⟩

/-! ## Retry pass and failures (C9) -/

/-- C9, as stated, fails: with two queued writes (cookies 1, 2), the first
resubmission rejected with EIO_errno and the second accepted, the pass does not stop
at the permanent failure: it goes on to submit the second descriptor, which
therefore does not stay queued. -/
theorem C9_counterexample :
    submissions (retry_io cfg_sample kernel_first_eio state_retry2).trace
      = [[write512 1], [write512 2]] ∧
    callbacks (retry_io cfg_sample kernel_first_eio state_retry2).trace = [(EIO_errno, 1)] ∧
    (retry_io cfg_sample kernel_first_eio state_retry2).iocb_retry_list = [] ∧
    (retry_io cfg_sample kernel_first_eio state_retry2).held = [write512 2] :=
  ⟨rfl, rfl, rfl, rfl⟩

/-- C9 (amended): in a `retry_io` pass that has capacity and pops descriptor `d`
(leaving `rest` queued), a rejected resubmission is handled as follows. With
errno EAGAIN the pass stops: `d` is appended again behind `rest`, nothing is
released or reported, and no further kernel submission is made in the pass.
With any other errno `d` is finalized (released, callback with that errno and
its cookie), `rest` stays queued in order, and the pass continues: its result
is that of `retry_io` on the state so reached. -/
theorem C9_retry_io_failure (cfg : Config) (k : Kernel) (s : State) (d : iocb_info_t)
    (rest : List iocb_info_t)
    (hc : can_submit_aio cfg s = true) (hq : s.iocb_retry_list = d :: rest)
    (hr : (k s.n_io_submit 1).1 ≠ 1) :
    ((k s.n_io_submit 1).2 = EAGAIN →
      (retry_io cfg k s).iocb_retry_list = rest ++ [d] ∧
      submissions (retry_io cfg k s).trace = submissions s.trace ++ [[d]] ∧
      callbacks (retry_io cfg k s).trace = callbacks s.trace ∧
      releases (retry_io cfg k s).trace = releases s.trace) ∧
    ((k s.n_io_submit 1).2 ≠ EAGAIN →
      retry_io cfg k s = retry_io cfg k (handle_io_failure d (retry_attempt k d rest s)).2 ∧
      (handle_io_failure d (retry_attempt k d rest s)).2.iocb_retry_list = rest ∧
      submissions (handle_io_failure d (retry_attempt k d rest s)).2.trace
        = submissions s.trace ++ [[d]] ∧
      callbacks (handle_io_failure d (retry_attempt k d rest s)).2.trace
        = callbacks s.trace ++ [((k s.n_io_submit 1).2, d.data)] ∧
      releases (handle_io_failure d (retry_attempt k d rest s)).2.trace
        = releases s.trace ++ [d]) := by
  obtain ⟨a1, a2, -, -, -, a6, -⟩ := retry_attempt_frame k d rest s
  have hloop := retry_io_loop_cons cfg k rest.length s d rest hc hq
  have hlen : s.iocb_retry_list.length + 1 = rest.length + 1 + 1 := by rw [hq]; rfl
  constructor
  · intro h2
    have hrun : retry_io cfg k s = (handle_io_failure d (retry_attempt k d rest s)).2 := by
      unfold retry_io
      rw [hlen, retry_io_loop_cons cfg k (rest.length + 1) s d rest hc hq]
      simp [hr, h2]
    rw [hrun, handle_io_failure_retry_list, handle_io_failure_submissions,
      handle_io_failure_trace, a6, if_pos h2, if_pos h2, a1, a2]
    simp [submissions, callbacks, releases]
  · intro h2
    have hq2 : (handle_io_failure d (retry_attempt k d rest s)).2.iocb_retry_list = rest := by
      rw [handle_io_failure_retry_list, a6, if_neg h2, a1]
    refine ⟨?_, hq2, ?_, ?_, ?_⟩
    · obtain ⟨s', h1, h3⟩ := retry_io_loop_terminates cfg k
        (handle_io_failure d (retry_attempt k d rest s)).2
      rw [hq2] at h1
      rw [h3]
      unfold retry_io
      rw [hlen, retry_io_loop_cons cfg k (rest.length + 1) s d rest hc hq]
      simp [hr, h2, h1]
    · rw [handle_io_failure_submissions, a2]
      simp [submissions]
    · rw [handle_io_failure_trace, a6, if_neg h2, a2]
      simp [callbacks]
    · rw [handle_io_failure_trace, a6, if_neg h2, a2]
      simp [releases]

/-- Witness of `C9_retry_io_failure`: two queued writes and a kernel that answers
every submission with EAGAIN; the first descriptor goes behind the second. -/
theorem C9_retry_io_failure_witness :
    can_submit_aio cfg_sample state_retry2 = true ∧
    (retry_io cfg_sample kernel_all_eagain state_retry2).iocb_retry_list
      = [write512 2] ++ [write512 1] :=
  ⟨rfl,
   ((C9_retry_io_failure cfg_sample kernel_all_eagain state_retry2 (write512 1) [write512 2]
      rfl rfl (by decide)).1 rfl).1⟩

/-! ## Effects of a retry pass -/

theorem retry_attempt_metrics (k : Kernel) (d : iocb_info_t) (rest : List iocb_info_t) (s : State) :
    (retry_attempt k d rest s).metrics.completion_errors = s.metrics.completion_errors ∧
    (retry_attempt k d rest s).metrics.resubmit_io_on_err = s.metrics.resubmit_io_on_err := by
  unfold retry_attempt
  rw [(inc_submitted_aio_frame _ _).2.2.2.2.2.2.1]
  simp [io_submit]

theorem handle_io_failure_metrics (d : iocb_info_t) (s : State) :
    (handle_io_failure d s).2.metrics.completion_errors = s.metrics.completion_errors ∧
    (handle_io_failure d s).2.metrics.resubmit_io_on_err = s.metrics.resubmit_io_on_err := by
  unfold handle_io_failure
  by_cases h : s.errno = EAGAIN
  · simp [h, push_retry_list]
  · by_cases hr : d.is_read <;> simp [h, hr, free_iocb, comp_cb]

/-- A retry pass leaves the completion-error and resubmission metrics alone. -/
theorem retry_io_metrics (cfg : Config) (k : Kernel) (s : State) :
    (retry_io cfg k s).metrics.completion_errors = s.metrics.completion_errors ∧
    (retry_io cfg k s).metrics.resubmit_io_on_err = s.metrics.resubmit_io_on_err := by
  apply retry_io_rule cfg k
    (fun t => t.metrics.completion_errors = s.metrics.completion_errors ∧
      t.metrics.resubmit_io_on_err = s.metrics.resubmit_io_on_err)
    (fun t => t.metrics.completion_errors = s.metrics.completion_errors ∧
      t.metrics.resubmit_io_on_err = s.metrics.resubmit_io_on_err)
  · intro t h _; exact h
  · intro t h _; exact h
  · intro t d rest h _ _ _
    rw [(retry_attempt_metrics k d rest t).1, (retry_attempt_metrics k d rest t).2]; exact h
  · intro t d rest h _ _ _ _
    rw [(handle_io_failure_metrics _ _).1, (handle_io_failure_metrics _ _).2,
      (retry_attempt_metrics k d rest t).1, (retry_attempt_metrics k d rest t).2]; exact h
  · intro t d rest h _ _ _ _
    rw [(handle_io_failure_metrics _ _).1, (handle_io_failure_metrics _ _).2,
      (retry_attempt_metrics k d rest t).1, (retry_attempt_metrics k d rest t).2]; exact h
  · exact ⟨rfl, rfl⟩

/-- Every action of a retry pass concerns a descriptor that was in the retry queue
when the pass began. -/
theorem retry_io_trace (cfg : Config) (k : Kernel) (s : State) :
    ∃ drain, (retry_io cfg k s).trace = s.trace ++ drain ∧
      ∀ a, a ∈ drain → from_queue s.iocb_retry_list a := by
  apply retry_io_rule cfg k
    (fun t => ∃ j drain, t.iocb_retry_list = s.iocb_retry_list.drop j ∧
      t.trace = s.trace ++ drain ∧ ∀ a, a ∈ drain → from_queue s.iocb_retry_list a)
    (fun t => ∃ drain, t.trace = s.trace ++ drain ∧
      ∀ a, a ∈ drain → from_queue s.iocb_retry_list a)
  · rintro t ⟨j, drain, _, h2, h3⟩ _; exact ⟨drain, h2, h3⟩
  · rintro t ⟨j, drain, _, h2, h3⟩ _; exact ⟨drain, h2, h3⟩
  · rintro t d rest ⟨j, drain, hq, h2, h3⟩ _ hd _
    rw [hq] at hd
    have hmem : d ∈ s.iocb_retry_list :=
      List.mem_of_mem_drop (by rw [hd]; exact List.mem_cons_self _ _)
    obtain ⟨hjl, hd1, hd2⟩ := drop_eq_cons_elim _ _ _ _ hd
    obtain ⟨a1, a2, -⟩ := retry_attempt_frame k d rest t
    refine ⟨j + 1, drain ++ [Action.io_submit [d] (k t.n_io_submit 1).1], by rw [a1, hd2],
      by rw [a2, h2, List.append_assoc], ?_⟩
    intro a ha
    rcases List.mem_append.mp ha with h | h
    · exact h3 a h
    · rw [List.mem_singleton] at h; subst h; exact ⟨d, hmem, rfl⟩
  · rintro t d rest ⟨j, drain, hq, h2, h3⟩ _ hd _ he
    rw [hq] at hd
    have hmem : d ∈ s.iocb_retry_list :=
      List.mem_of_mem_drop (by rw [hd]; exact List.mem_cons_self _ _)
    obtain ⟨hjl, hd1, hd2⟩ := drop_eq_cons_elim _ _ _ _ hd
    obtain ⟨a1, a2, -, -, -, a6, -⟩ := retry_attempt_frame k d rest t
    refine ⟨j + 1, drain ++ [Action.io_submit [d] (k t.n_io_submit 1).1, Action.io_failure d,
        Action.free_iocb d, Action.comp_cb (k t.n_io_submit 1).2 d.data],
      by rw [handle_io_failure_retry_list, a6, if_neg he, a1, hd2],
      by rw [handle_io_failure_trace, a6, if_neg he, a2, h2]; simp, ?_⟩
    intro a ha
    rcases List.mem_append.mp ha with h | h
    · exact h3 a h
    · simp only [List.mem_cons, List.mem_singleton, List.not_mem_nil, or_false] at h
      rcases h with h | h | h | h <;> subst h
      · exact ⟨d, hmem, rfl⟩
      · exact hmem
      · exact hmem
      · exact ⟨d, hmem, rfl⟩
  · rintro t d rest ⟨j, drain, hq, h2, h3⟩ _ hd _ he
    rw [hq] at hd
    have hmem : d ∈ s.iocb_retry_list :=
      List.mem_of_mem_drop (by rw [hd]; exact List.mem_cons_self _ _)
    obtain ⟨a1, a2, -, -, -, a6, -⟩ := retry_attempt_frame k d rest t
    refine ⟨drain ++ [Action.io_submit [d] (k t.n_io_submit 1).1, Action.io_failure d],
      by rw [handle_io_failure_trace, a6, if_pos he, a2, h2]; simp, ?_⟩
    intro a ha
    rcases List.mem_append.mp ha with h | h
    · exact h3 a h
    · simp only [List.mem_cons, List.mem_singleton, List.not_mem_nil, or_false] at h
      rcases h with h | h <;> subst h
      · exact ⟨d, hmem, rfl⟩
      · exact hmem
  · exact ⟨0, [], by simp, by simp, by simp⟩

theorem comp_cb_frame (res : Int) (cookie : Nat) (s : State) :
    (comp_cb res cookie s).trace = s.trace ++ [Action.comp_cb res cookie] ∧
    (comp_cb res cookie s).metrics = s.metrics ∧
    (comp_cb res cookie s).held = s.held ∧
    (comp_cb res cookie s).iocb_retry_list = s.iocb_retry_list ∧
    (comp_cb res cookie s).cur_iocb_batch = s.cur_iocb_batch ∧
    (comp_cb res cookie s).submitted_aio = s.submitted_aio :=
  ⟨rfl, rfl, rfl, rfl, rfl, rfl⟩

theorem free_dec_frame (iocb : iocb_info_t) (s : State) :
    (free_iocb iocb (dec_submitted_aio s)).trace = s.trace ++ [Action.free_iocb iocb] ∧
    (free_iocb iocb (dec_submitted_aio s)).metrics = s.metrics ∧
    (free_iocb iocb (dec_submitted_aio s)).held = s.held ∧
    (free_iocb iocb (dec_submitted_aio s)).iocb_retry_list = s.iocb_retry_list ∧
    (free_iocb iocb (dec_submitted_aio s)).cur_iocb_batch = s.cur_iocb_batch ∧
    (free_iocb iocb (dec_submitted_aio s)).submitted_aio
      = (s.submitted_aio + UINT64_SIZE - 1) % UINT64_SIZE := by
  unfold free_iocb dec_submitted_aio set_poll_interval
  exact ⟨rfl, rfl, rfl, rfl, rfl, rfl⟩

theorem handle_completions_finish_eq (cfg : Config) (k : Kernel) (iocb : iocb_info_t)
    (res2 : Int) (s : State) :
    handle_completions_finish cfg k iocb res2 s
      = comp_cb res2 iocb.data (retry_io cfg k (free_iocb iocb (dec_submitted_aio s))) := by
  unfold handle_completions_finish
  simp only

/-- Finalization of a request: the metrics of completion errors and resubmissions
are untouched, and the log grows by the release, the actions of one retry
pass, and the callback. -/
theorem handle_completions_finish_spec (cfg : Config) (k : Kernel) (iocb : iocb_info_t)
    (res2 : Int) (s : State) :
    (handle_completions_finish cfg k iocb res2 s).metrics.completion_errors
      = s.metrics.completion_errors ∧
    (handle_completions_finish cfg k iocb res2 s).metrics.resubmit_io_on_err
      = s.metrics.resubmit_io_on_err ∧
    ∃ drain,
      (handle_completions_finish cfg k iocb res2 s).trace
        = s.trace ++ [Action.free_iocb iocb] ++ drain ++ [Action.comp_cb res2 iocb.data] ∧
      ∀ a, a ∈ drain → from_queue s.iocb_retry_list a := by
  rw [handle_completions_finish_eq]
  obtain ⟨m1, m2⟩ := retry_io_metrics cfg k (free_iocb iocb (dec_submitted_aio s))
  obtain ⟨drain, t1, t2⟩ := retry_io_trace cfg k (free_iocb iocb (dec_submitted_aio s))
  obtain ⟨c1, c2, -⟩ := comp_cb_frame res2 iocb.data
    (retry_io cfg k (free_iocb iocb (dec_submitted_aio s)))
  obtain ⟨f1, f2, -, f4, -⟩ := free_dec_frame iocb s
  rw [c1, c2, m1, m2, t1, f1, f2]
  rw [f4] at t2
  exact ⟨rfl, rfl, drain, rfl, t2⟩

/-! ## Completions with a negative result (C10) -/

/-- C10, as stated, fails: a write (cookie 1) is accepted by the kernel and then
completes with result -5 and secondary code 0. No resubmission is attempted
(the only kernel submission is the original one and the resubmission metric
stays 0), and the callback is invoked with the value 0. -/
theorem C10_counterexample :
    submissions (run cfg_sample kernel_accept_all (init_iface_thread_ctx cfg_sample)
      [Op.async_write 3 512 0 1 false,
       Op.handle_completions 1 [completion (write512 1) (-5) 0]]).trace = [[write512 1]] ∧
    (run cfg_sample kernel_accept_all (init_iface_thread_ctx cfg_sample)
      [Op.async_write 3 512 0 1 false,
       Op.handle_completions 1 [completion (write512 1) (-5) 0]]).metrics.resubmit_io_on_err = 0 ∧
    (run cfg_sample kernel_accept_all (init_iface_thread_ctx cfg_sample)
      [Op.async_write 3 512 0 1 false,
       Op.handle_completions 1 [completion (write512 1) (-5) 0]]).metrics.completion_errors = 1 ∧
    callbacks (run cfg_sample kernel_accept_all (init_iface_thread_ctx cfg_sample)
      [Op.async_write 3 512 0 1 false,
       Op.handle_completions 1 [completion (write512 1) (-5) 0]]).trace = [(0, 1)] :=
  ⟨rfl, rfl, rfl, rfl⟩

/-- C10 (amended): for every completion event whose result code is negative, the
loop body of `handle_completions` counts one completion error, does not go
through `resubmit_iocb_on_err` (its metric is unchanged and every kernel
submission of the step belongs to the drain of the retry queue), and
finalizes the request in that step: the descriptor is released, the retry
queue is drained once, and the callback is then invoked with the request's
cookie as the last action of the step. -/
theorem C10_negative_result (cfg : Config) (k : Kernel) (s : State) (e : io_event)
    (hneg : e.res < 0) :
    (handle_completions_body cfg k s e).metrics.completion_errors
      = s.metrics.completion_errors + 1 ∧
    (handle_completions_body cfg k s e).metrics.resubmit_io_on_err
      = s.metrics.resubmit_io_on_err ∧
    ∃ drain res,
      (handle_completions_body cfg k s e).trace
        = s.trace ++ [Action.free_iocb e.obj] ++ drain ++ [Action.comp_cb res e.obj.data] ∧
      ∀ a, a ∈ drain → from_queue s.iocb_retry_list a := by
  have hbody : handle_completions_body cfg k s e
      = handle_completions_finish cfg k e.obj e.res2
          { s with metrics :=
            { s.metrics with completion_errors := s.metrics.completion_errors + 1 } } := by
    simp only [handle_completions_body, hneg, if_true]
  rw [hbody]
  obtain ⟨f1, f2, drain, f3, f4⟩ := handle_completions_finish_spec cfg k e.obj e.res2
    { s with metrics :=
      { s.metrics with completion_errors := s.metrics.completion_errors + 1 } }
  exact ⟨f1, f2, drain, e.res2, f3, f4⟩

/-- Witness of `C10_negative_result`: a write completing with result -5 on a context
that holds it as its only outstanding request. -/
theorem C10_negative_result_witness :
    (handle_completions_body cfg_sample kernel_accept_all
      { init_iface_thread_ctx cfg_sample with submitted_aio := 1 }
      (completion (write512 1) (-5) 0)).metrics.completion_errors = 0 + 1 :=
  (C10_negative_result cfg_sample kernel_accept_all
    { init_iface_thread_ctx cfg_sample with submitted_aio := 1 }
    (completion (write512 1) (-5) 0) (by decide)).1

/-! ## Bounded resubmission (C3) -/

/-- C3 at its own scenario (maximum 1, two consecutive short completions of the
same request): the first completion resubmits the descriptor with counter 1,
and the second completion resubmits it again with counter 2, above the
maximum; no callback is invoked and nothing is released. Only a third short
completion is refused resubmission and reported, with EIO_errno. -/
theorem C3_resubmits_past_maximum :
    cfg_sample.max_resubmit_cnt = 1 ∧
    submissions run_two_short.trace
      = [[write512 1], [write512_resubmitted 1 1], [write512_resubmitted 1 2]] ∧
    callbacks run_two_short.trace = [] ∧
    releases run_two_short.trace = [] ∧
    run_two_short.held = [write512_resubmitted 1 2] ∧
    callbacks run_three_short.trace = [(EIO_errno, 1)] ∧
    releases run_three_short.trace = [write512_resubmitted 1 2] :=
  ⟨rfl, rfl, rfl, rfl, rfl, rfl, rfl⟩

/-! ## Capacity of the outstanding counter (C2) -/

theorem async_write_direct_accept (cfg : Config) (fd : Int) (size offset cookie : Nat) (s : State)
    (hc : s.submitted_aio < cfg.MAX_OUTSTANDING) (hm : cfg.MAX_OUTSTANDING < UINT64_SIZE) :
    (async_write cfg kernel_accept_all fd size offset cookie false s).submitted_aio
      = s.submitted_aio + 1 ∧
    (async_write cfg kernel_accept_all fd size offset cookie false s).cur_iocb_batch
      = s.cur_iocb_batch := by
  have hlt : s.submitted_aio + 1 < UINT64_SIZE := by omega
  simp [async_write, async_submit, can_submit_aio, hc, kernel_accept_all, io_submit,
    inc_submitted_aio, set_poll_interval, Nat.mod_eq_of_lt hlt]

theorem async_write_batched (cfg : Config) (k : Kernel) (fd : Int) (size offset cookie : Nat)
    (s : State) (hc : s.submitted_aio < cfg.MAX_OUTSTANDING)
    (hb : s.cur_iocb_batch.length < cfg.max_batch_iocb_count) :
    async_write cfg k fd size offset cookie true s
      = append_cur_batch (prep_iocb fd false size offset cookie) s := by
  simp [async_write, async_submit, can_submit_aio, hc, can_be_batched, hb]

theorem run_append (cfg : Config) (k : Kernel) (s : State) (a b : List Op) :
    run cfg k s (a ++ b) = run cfg k (run cfg k s a) b := by
  simp [run, List.foldl_append]

theorem run_direct_writes (cfg : Config) (n : Nat) (s : State)
    (hn : s.submitted_aio + n ≤ cfg.MAX_OUTSTANDING) (hm : cfg.MAX_OUTSTANDING < UINT64_SIZE) :
    (run cfg kernel_accept_all s
      (List.replicate n (Op.async_write 3 512 0 7 false))).submitted_aio = s.submitted_aio + n ∧
    (run cfg kernel_accept_all s
      (List.replicate n (Op.async_write 3 512 0 7 false))).cur_iocb_batch = s.cur_iocb_batch := by
  induction n generalizing s with
  | zero => simp [run]
  | succ n ih =>
    have hstep : run cfg kernel_accept_all s
        (List.replicate (n + 1) (Op.async_write 3 512 0 7 false))
        = run cfg kernel_accept_all (async_write cfg kernel_accept_all 3 512 0 7 false s)
            (List.replicate n (Op.async_write 3 512 0 7 false)) := rfl
    obtain ⟨h1, h2⟩ := async_write_direct_accept cfg 3 512 0 7 s (by omega) hm
    obtain ⟨h3, h4⟩ := ih (async_write cfg kernel_accept_all 3 512 0 7 false s)
      (by rw [h1]; omega)
    rw [hstep, h3, h4, h1, h2]
    exact ⟨by omega, rfl⟩

/-- C2 at a failing input: on a context with capacity `MAX_OUTSTANDING >= 1` and room
for two descriptors in the batch accumulator, `MAX_OUTSTANDING - 1` accepted
direct writes bring the counter to one below capacity; two batched writes
are then both admitted (each sees the counter below capacity, the pending
batch is not counted); `submit_batch`, with the kernel accepting both, adds 2
at once and leaves the counter at `MAX_OUTSTANDING + 1`. -/
theorem C2_counter_exceeds_capacity (cfg : Config)
    (h1 : 1 ≤ cfg.MAX_OUTSTANDING) (h2 : 2 ≤ cfg.max_batch_iocb_count)
    (h3 : cfg.MAX_OUTSTANDING + 1 < UINT64_SIZE) :
    (run cfg kernel_accept_all (init_iface_thread_ctx cfg) (ops_overfill cfg)).submitted_aio
      = cfg.MAX_OUTSTANDING + 1 := by
  unfold ops_overfill
  rw [run_append]
  obtain ⟨d1, d2⟩ := run_direct_writes cfg (cfg.MAX_OUTSTANDING - 1) (init_iface_thread_ctx cfg)
    (by simp [init_iface_thread_ctx]) (by omega)
  generalize run cfg kernel_accept_all (init_iface_thread_ctx cfg)
    (List.replicate (cfg.MAX_OUTSTANDING - 1) (Op.async_write 3 512 0 7 false)) = s at d1 d2
  have hs : s.submitted_aio = cfg.MAX_OUTSTANDING - 1 := by
    rw [d1]; simp [init_iface_thread_ctx]
  have hb : s.cur_iocb_batch = [] := by rw [d2]; rfl
  have hrun : run cfg kernel_accept_all s
      [Op.async_write 3 512 0 8 true, Op.async_write 3 512 0 9 true, Op.submit_batch]
      = submit_batch kernel_accept_all
          (async_write cfg kernel_accept_all 3 512 0 9 true
            (async_write cfg kernel_accept_all 3 512 0 8 true s)) := rfl
  rw [hrun, async_write_batched cfg _ 3 512 0 8 s (by omega) (by rw [hb]; simp; omega)]
  rw [async_write_batched cfg _ 3 512 0 9 _ (by simp [append_cur_batch]; omega)
    (by simp [append_cur_batch, hb]; omega)]
  have hbatch : (append_cur_batch (prep_iocb 3 false 512 0 9)
      (append_cur_batch (prep_iocb 3 false 512 0 8) s)).cur_iocb_batch
      = [prep_iocb 3 false 512 0 8, prep_iocb 3 false 512 0 9] := by
    simp [append_cur_batch, hb]
  have hcnt : (append_cur_batch (prep_iocb 3 false 512 0 9)
      (append_cur_batch (prep_iocb 3 false 512 0 8) s)).submitted_aio = s.submitted_aio := rfl
  obtain ⟨c1, -⟩ := submit_batch_spec kernel_accept_all _
    (by rw [hbatch]; simp) (by rw [hbatch]; simp [kernel_accept_all])
  rw [c1, hbatch, hcnt, hs]
  simp only [kernel_accept_all, List.length_cons, List.length_nil]
  have : (max ((0 + 1 + 1 : Nat) : Int) 0).toNat = 2 := by decide
  rw [this, Nat.mod_eq_of_lt (by omega)]
  omega

/-- Witness of `C2_counter_exceeds_capacity`: capacity 200, counter 201. -/
theorem C2_counter_exceeds_capacity_witness :
    (run cfg_sample kernel_accept_all (init_iface_thread_ctx cfg_sample)
      (ops_overfill cfg_sample)).submitted_aio = 200 + 1 :=
  C2_counter_exceeds_capacity cfg_sample (by decide) (by decide) (by decide)

/-! ## Fully successful completions (C11) -/

theorem dec_wrap (c m : Nat) (h1 : 0 < c) (h2 : c < m) : (c + m - 1) % m + 1 = c := by
  have h : c + m - 1 = (c - 1) + m := by omega
  rw [h, Nat.add_mod_right, Nat.mod_eq_of_lt (by omega)]
  omega

theorem retry_io_nil (cfg : Config) (k : Kernel) (s : State) (h : s.iocb_retry_list = []) :
    retry_io cfg k s = s := by
  unfold retry_io
  rw [retry_io_loop_nil cfg k _ s h]
  rfl

theorem handle_completions_body_success (cfg : Config) (k : Kernel) (s : State) (e : io_event)
    (hres : e.res = (e.obj.size : Int)) (hres2 : e.res2 = 0) :
    handle_completions_body cfg k s e
      = comp_cb 0 e.obj.data (retry_io cfg k (free_iocb e.obj (dec_submitted_aio s))) := by
  have h1 : ¬ e.res < 0 := by rw [hres]; exact not_lt.mpr (Int.natCast_nonneg _)
  have h2 : ¬ (e.res ≠ (e.obj.size : Int) ∨ e.res2 ≠ 0) := by simp [hres, hres2]
  simp only [handle_completions_body, h1, h2, if_false]
  rw [handle_completions_finish_eq, hres2]

/-- C11: for a completion event whose byte count equals the descriptor's requested
size and whose secondary code is 0 (on a context whose counter is positive
and in the unsigned 64-bit range), the loop body of `handle_completions`
is exactly: decrement the outstanding counter by one, release the
descriptor, drain the retry queue once, invoke the callback with result 0 and
the descriptor's cookie. It counts no completion error and does not go through
`resubmit_iocb_on_err`; the log grows by the release, the actions of the drain
(which concern queued descriptors only) and the one callback `(0, cookie)`.
With an empty retry queue the step as a whole lowers the counter by exactly
one, leaves the kernel-held set alone and logs just the release and the
callback. -/
theorem C11_full_success (cfg : Config) (k : Kernel) (s : State) (e : io_event)
    (hres : e.res = (e.obj.size : Int)) (hres2 : e.res2 = 0)
    (hpos : 0 < s.submitted_aio) (hlt : s.submitted_aio < UINT64_SIZE) :
    handle_completions_body cfg k s e
      = comp_cb 0 e.obj.data (retry_io cfg k (free_iocb e.obj (dec_submitted_aio s))) ∧
    (free_iocb e.obj (dec_submitted_aio s)).submitted_aio + 1 = s.submitted_aio ∧
    (handle_completions_body cfg k s e).metrics.completion_errors = s.metrics.completion_errors ∧
    (handle_completions_body cfg k s e).metrics.resubmit_io_on_err
      = s.metrics.resubmit_io_on_err ∧
    (∃ drain,
      (handle_completions_body cfg k s e).trace
        = s.trace ++ [Action.free_iocb e.obj] ++ drain ++ [Action.comp_cb 0 e.obj.data] ∧
      ∀ a, a ∈ drain → from_queue s.iocb_retry_list a) ∧
    (s.iocb_retry_list = [] →
      (handle_completions_body cfg k s e).submitted_aio + 1 = s.submitted_aio ∧
      (handle_completions_body cfg k s e).held = s.held ∧
      (handle_completions_body cfg k s e).trace
        = s.trace ++ [Action.free_iocb e.obj, Action.comp_cb 0 e.obj.data]) := by
  obtain ⟨f1, f2, f3, f4, f5, f6⟩ := free_dec_frame e.obj s
  have hcnt : (free_iocb e.obj (dec_submitted_aio s)).submitted_aio + 1 = s.submitted_aio := by
    rw [f6]; exact dec_wrap _ _ hpos hlt
  have hbody := handle_completions_body_success cfg k s e hres hres2
  have hfin : handle_completions_body cfg k s e
      = handle_completions_finish cfg k e.obj 0 s := by
    rw [hbody, handle_completions_finish_eq]
  obtain ⟨g1, g2, drain, g3, g4⟩ := handle_completions_finish_spec cfg k e.obj 0 s
  refine ⟨hbody, hcnt, by rw [hfin, g1], by rw [hfin, g2], ⟨drain, by rw [hfin, g3], g4⟩, ?_⟩
  intro hq
  have hnil : retry_io cfg k (free_iocb e.obj (dec_submitted_aio s))
      = free_iocb e.obj (dec_submitted_aio s) := retry_io_nil cfg k _ (by rw [f4]; exact hq)
  obtain ⟨c1, -, c3, -, -, c6⟩ := comp_cb_frame 0 e.obj.data
    (free_iocb e.obj (dec_submitted_aio s))
  rw [hbody, hnil, c1, c3, c6, f1, f3]
  exact ⟨hcnt, rfl, by simp⟩

/-- Witness of `C11_full_success`, at the scenario of the claim: after the single
512-byte write with cookie 1 was accepted, its completion with 512 bytes
yields exactly the callback `(0, 1)`, the release of the descriptor, counter
0 and no further kernel submission. -/
theorem C11_full_success_witness :
    ((handle_completions_body cfg_sample kernel_accept_all
        (run cfg_sample kernel_accept_all (init_iface_thread_ctx cfg_sample)
          [Op.async_write 3 512 0 1 false])
        (completion (write512 1) 512 0)).submitted_aio + 1
      = (run cfg_sample kernel_accept_all (init_iface_thread_ctx cfg_sample)
          [Op.async_write 3 512 0 1 false]).submitted_aio) ∧
    callbacks run_write_completed.trace = [(0, 1)] ∧
    releases run_write_completed.trace = [write512 1] ∧
    submissions run_write_completed.trace = [[write512 1]] ∧
    run_write_completed.submitted_aio = 0 ∧
    run_write_completed.held = [] :=
  ⟨((C11_full_success cfg_sample kernel_accept_all
      (run cfg_sample kernel_accept_all (init_iface_thread_ctx cfg_sample)
        [Op.async_write 3 512 0 1 false])
      (completion (write512 1) 512 0) rfl rfl (by decide) (by decide)).2.2.2.2.2 rfl).1,
   rfl, rfl, rfl, rfl, rfl⟩

/-! ## Counter against kernel-held descriptors (C12) -/

/-- C12 at a failing input: a write (cookie 1) is accepted, completes short, and its
resubmission is rejected by the kernel. With errno EIO the request is
finalized through `handle_io_failure` (released, callback with EIO) and the
kernel holds nothing, yet the counter stays 1. With errno EAGAIN the request
is queued for retry, the kernel holds nothing and the counter stays 1; when
the retry timer then resubmits it successfully the kernel holds one
descriptor and the counter is 2. -/
theorem C12_counter_not_held_count :
    (run_short_rejected EIO_errno).held = [] ∧
    (run_short_rejected EIO_errno).submitted_aio = 1 ∧
    callbacks (run_short_rejected EIO_errno).trace = [(EIO_errno, 1)] ∧
    releases (run_short_rejected EIO_errno).trace = [write512_resubmitted 1 1] ∧
    (run_short_rejected EAGAIN).held = [] ∧
    (run_short_rejected EAGAIN).iocb_retry_list = [write512_resubmitted 1 1] ∧
    (run_short_rejected EAGAIN).submitted_aio = 1 ∧
    run_short_requeued.held = [write512_resubmitted 1 1] ∧
    run_short_requeued.iocb_retry_list = [] ∧
    run_short_requeued.submitted_aio = 2 :=
  ⟨rfl, rfl, rfl, rfl, rfl, rfl, rfl, rfl, rfl, rfl⟩

/-! ## Conservation of requests: primitive steps -/

theorem cookie_count_append (c : Nat) (a b : List iocb_info_t) :
    cookie_count c (a ++ b) = cookie_count c a + cookie_count c b := by
  simp [cookie_count, List.countP_append]

theorem cookie_count_nil (c : Nat) : cookie_count c [] = 0 := rfl

theorem cookie_count_cons (c : Nat) (d : iocb_info_t) (ds : List iocb_info_t) :
    cookie_count c (d :: ds) = cookie_count c [d] + cookie_count c ds := by
  rw [← cookie_count_append]; rfl

theorem cb_count_append (c : Nat) (a b : List Action) :
    cb_count c (a ++ b) = cb_count c a + cb_count c b := by
  simp [cb_count, callbacks_append, List.count_append]

theorem release_count_append (c : Nat) (a b : List Action) :
    release_count c (a ++ b) = release_count c a + release_count c b := by
  simp [release_count, releases_append, cookie_count_append]

theorem cb_count_submit (c : Nat) (ds : List iocb_info_t) (r : Int) :
    cb_count c [Action.io_submit ds r] = 0 := rfl

theorem release_count_submit (c : Nat) (ds : List iocb_info_t) (r : Int) :
    release_count c [Action.io_submit ds r] = 0 := rfl

theorem cb_count_failure (c : Nat) (d : iocb_info_t) :
    cb_count c [Action.io_failure d] = 0 := rfl

theorem release_count_failure (c : Nat) (d : iocb_info_t) :
    release_count c [Action.io_failure d] = 0 := rfl

theorem cb_count_free (c : Nat) (d : iocb_info_t) :
    cb_count c [Action.free_iocb d] = 0 := rfl

theorem release_count_free (c : Nat) (d : iocb_info_t) :
    release_count c [Action.free_iocb d] = cookie_count c [d] := rfl

theorem cb_count_cb (c : Nat) (d : iocb_info_t) (res : Int) :
    cb_count c [Action.comp_cb res d.data] = cookie_count c [d] := by
  by_cases h : d.data = c
  · simp [cb_count, callbacks, cookie_count, h]
  · have h' : ¬ (d.data == c) = true := by simpa using h
    simp [cb_count, callbacks, cookie_count, h, List.count_cons, h']

theorem release_count_cb (c : Nat) (res : Int) (cookie : Nat) :
    release_count c [Action.comp_cb res cookie] = 0 := rfl

theorem effect_refl (c : Nat) (s : State) : effect c 0 0 s s := ⟨rfl, rfl⟩

theorem effect_trans (c a b a' b' : Nat) (s t u : State)
    (h1 : effect c a b s t) (h2 : effect c a' b' t u) : effect c (a + a') (b + b') s u := by
  obtain ⟨m1, r1⟩ := h1
  obtain ⟨m2, r2⟩ := h2
  exact ⟨by omega, by omega⟩

/-- Two states that agree on the log, the accumulator, the retry queue and the
kernel-held set are related by the empty effect. -/
theorem effect_of_same (c : Nat) (s t : State) (h1 : t.trace = s.trace)
    (h2 : t.cur_iocb_batch = s.cur_iocb_batch) (h3 : t.iocb_retry_list = s.iocb_retry_list)
    (h4 : t.held = s.held) : effect c 0 0 s t := by
  unfold effect mass pending
  rw [h1, h2, h3, h4]
  exact ⟨rfl, rfl⟩

theorem inc_submitted_aio_effect (c : Nat) (count : Int) (s : State) :
    effect c 0 0 s (inc_submitted_aio count s) := by
  obtain ⟨-, i2, i3, -, i5, i6, -⟩ := inc_submitted_aio_frame count s
  exact effect_of_same c _ _ i3 i5 i6 i2

theorem handle_io_failure_effect (c : Nat) (d : iocb_info_t) (s : State) :
    effect c 0 (cookie_count c [d]) s (handle_io_failure d s).2 := by
  obtain ⟨f1, -, -, f4, -⟩ := handle_io_failure_frame d s
  have ft := handle_io_failure_trace d s
  have fr := handle_io_failure_retry_list d s
  unfold effect mass pending
  rw [f1, f4, ft, fr]
  by_cases h : s.errno = EAGAIN
  · simp only [h, if_true, cb_count_append, release_count_append, cookie_count_append,
      cb_count_failure, release_count_failure]
    exact ⟨by omega, by omega⟩
  · simp only [h, if_false]
    have e1 : cb_count c [Action.io_failure d, Action.free_iocb d, Action.comp_cb s.errno d.data]
        = cookie_count c [d] := by
      have : [Action.io_failure d, Action.free_iocb d, Action.comp_cb s.errno d.data]
          = [Action.io_failure d] ++ [Action.free_iocb d] ++ [Action.comp_cb s.errno d.data] := rfl
      rw [this, cb_count_append, cb_count_append, cb_count_failure, cb_count_free, cb_count_cb]
      omega
    have e2 : release_count c
        [Action.io_failure d, Action.free_iocb d, Action.comp_cb s.errno d.data]
        = cookie_count c [d] := rfl
    rw [cb_count_append, release_count_append, e1, e2]
    exact ⟨by omega, by omega⟩

theorem io_submit_effect (c : Nat) (k : Kernel) (ds : List iocb_info_t) (s : State) :
    effect c 0 (cookie_count c (ds.take (k s.n_io_submit ds.length).1.toNat)) s
      (io_submit k ds s).2 := by
  unfold effect mass pending io_submit
  simp only [cb_count_append, release_count_append, cookie_count_append, cb_count_submit,
    release_count_submit]
  exact ⟨by omega, by omega⟩

/-- Effect of the state changes that do not touch the log, the accumulator or the
kernel-held set but replace the retry queue: the pop of `retry_io`. -/
theorem pop_effect (c : Nat) (s : State) (d : iocb_info_t) (rest : List iocb_info_t)
    (m : Metrics) (hq : s.iocb_retry_list = d :: rest) :
    effect c (cookie_count c [d]) 0 s { s with iocb_retry_list := rest, metrics := m } := by
  unfold effect mass pending
  constructor
  · show cb_count c s.trace
        + (cookie_count c s.cur_iocb_batch + cookie_count c rest + cookie_count c s.held)
        + cookie_count c [d]
      = cb_count c s.trace
        + (cookie_count c s.cur_iocb_batch + cookie_count c s.iocb_retry_list
          + cookie_count c s.held) + 0
    rw [hq, cookie_count_cons c d rest]
    omega
  · rfl

theorem retry_attempt_effect (c : Nat) (k : Kernel) (s : State) (d : iocb_info_t)
    (rest : List iocb_info_t) (hq : s.iocb_retry_list = d :: rest) :
    effect c (cookie_count c [d]) (cookie_count c ([d].take (k s.n_io_submit 1).1.toNat)) s
      (retry_attempt k d rest s) := by
  have h1 := pop_effect c s d rest
    { s.metrics with retry_list_size := s.metrics.retry_list_size - 1 } hq
  have h2 := io_submit_effect c k [d]
    { s with iocb_retry_list := rest
             metrics := { s.metrics with retry_list_size := s.metrics.retry_list_size - 1 } }
  have h3 := inc_submitted_aio_effect c (k s.n_io_submit 1).1
    (io_submit k [d]
      { s with iocb_retry_list := rest
               metrics := { s.metrics with retry_list_size := s.metrics.retry_list_size - 1 } }).2
  have h := effect_trans _ _ _ _ _ _ _ _ (effect_trans _ _ _ _ _ _ _ _ h1 h2) h3
  simpa [retry_attempt] using h

theorem take_toNat_of_le_one (d : iocb_info_t) (r : Int) (h : r ≤ 1) (h1 : r ≠ 1) :
    [d].take r.toNat = [] := by
  have : r.toNat = 0 := by omega
  rw [this]; rfl

/-- A retry pass neither loses nor duplicates a request, and it releases exactly
the descriptors it reports. -/
theorem retry_io_effect (c : Nat) (cfg : Config) (k : Kernel) (hk : kernel_ok k) (s : State) :
    effect c 0 0 s (retry_io cfg k s) := by
  apply retry_io_rule cfg k (fun t => effect c 0 0 s t) (fun t => effect c 0 0 s t)
  · intro t h _; exact h
  · intro t h _; exact h
  · intro t d rest h _ hq hr
    have h1 := retry_attempt_effect c k t d rest hq
    rw [hr] at h1
    obtain ⟨m0, r0⟩ := h
    obtain ⟨m1, r1⟩ := h1
    have : cookie_count c ([d].take (1 : Int).toNat) = cookie_count c [d] := rfl
    exact ⟨by omega, by omega⟩
  · intro t d rest h _ hq hr _
    have h1 := retry_attempt_effect c k t d rest hq
    rw [take_toNat_of_le_one d _ (by simpa using hk t.n_io_submit 1) hr] at h1
    have h2 := handle_io_failure_effect c d (retry_attempt k d rest t)
    obtain ⟨m0, r0⟩ := h
    obtain ⟨m1, r1⟩ := h1
    obtain ⟨m2, r2⟩ := h2
    rw [cookie_count_nil] at m1
    exact ⟨by omega, by omega⟩
  · intro t d rest h _ hq hr _
    have h1 := retry_attempt_effect c k t d rest hq
    rw [take_toNat_of_le_one d _ (by simpa using hk t.n_io_submit 1) hr] at h1
    have h2 := handle_io_failure_effect c d (retry_attempt k d rest t)
    obtain ⟨m0, r0⟩ := h
    obtain ⟨m1, r1⟩ := h1
    obtain ⟨m2, r2⟩ := h2
    rw [cookie_count_nil] at m1
    exact ⟨by omega, by omega⟩
  · exact effect_refl c s

/-! ## Conservation of requests: operations -/

theorem effect_cancel (c a b x : Nat) (s t : State) (h : effect c (a + x) (b + x) s t) :
    effect c a b s t := by
  obtain ⟨m, r⟩ := h
  exact ⟨by omega, r⟩

theorem effect_congr (c a b b' : Nat) (s t : State) (h : effect c a b s t) (hb : b = b') :
    effect c a b' s t := by
  rw [← hb]; exact h

theorem effect_trans_eq (c : Nat) {a b a' b' a'' b'' : Nat} {s t u : State}
    (h1 : effect c a b s t) (h2 : effect c a' b' t u)
    (h : a'' + (b + b') = b'' + (a + a')) : effect c a'' b'' s u := by
  obtain ⟨m1, r1⟩ := h1
  obtain ⟨m2, r2⟩ := h2
  exact ⟨by omega, by omega⟩

theorem fail_each_effect (c : Nat) (ds : List iocb_info_t) (s : State) :
    effect c 0 (cookie_count c ds) s (fail_each ds s) := by
  induction ds generalizing s with
  | nil => exact effect_refl c s
  | cons d ds ih =>
    have hstep : fail_each (d :: ds) s = fail_each ds (handle_io_failure d s).2 := rfl
    rw [hstep, cookie_count_cons]
    exact effect_trans_eq c (handle_io_failure_effect c d s) (ih _) (by omega)

theorem handle_completions_finish_effect (c : Nat) (cfg : Config) (k : Kernel) (hk : kernel_ok k)
    (iocb : iocb_info_t) (res2 : Int) (s : State) :
    effect c 0 (cookie_count c [iocb]) s (handle_completions_finish cfg k iocb res2 s) := by
  rw [handle_completions_finish_eq]
  obtain ⟨f1, -, f3, f4, f5, -⟩ := free_dec_frame iocb s
  obtain ⟨m1, r1⟩ := retry_io_effect c cfg k hk (free_iocb iocb (dec_submitted_aio s))
  obtain ⟨c1, -, c3, c4, c5, -⟩ := comp_cb_frame res2 iocb.data
    (retry_io cfg k (free_iocb iocb (dec_submitted_aio s)))
  unfold mass pending at m1
  rw [f1, f3, f4, f5, cb_count_append, cb_count_free] at m1
  rw [f1, cb_count_append, cb_count_free, release_count_append, release_count_free] at r1
  unfold effect mass pending
  rw [c1, c3, c4, c5, cb_count_append, cb_count_cb, release_count_append, release_count_cb]
  exact ⟨by omega, by omega⟩

theorem resubmit_iocb_on_err_effect (c : Nat) (cfg : Config) (k : Kernel) (hk : kernel_ok k)
    (iocb : iocb_info_t) (s : State) :
    ((resubmit_iocb_on_err cfg k iocb s).1 = false ∧ (resubmit_iocb_on_err cfg k iocb s).2 = s) ∨
    ((resubmit_iocb_on_err cfg k iocb s).1 = true ∧
      effect c 0 (cookie_count c [iocb]) s (resubmit_iocb_on_err cfg k iocb s).2) := by
  by_cases hcnt : iocb.resubmit_cnt > cfg.max_resubmit_cnt
  · left
    simp [resubmit_iocb_on_err, hcnt]
  · right
    have h1 := io_submit_effect c k [{ iocb with resubmit_cnt := iocb.resubmit_cnt + 1 }] s
    simp only [List.length_singleton] at h1
    have hle : (k s.n_io_submit 1).1 ≤ 1 := by simpa using hk s.n_io_submit 1
    have h2 : effect c 0 0
        (io_submit k [{ iocb with resubmit_cnt := iocb.resubmit_cnt + 1 }] s).2
        { (io_submit k [{ iocb with resubmit_cnt := iocb.resubmit_cnt + 1 }] s).2 with
          metrics :=
            { (io_submit k [{ iocb with resubmit_cnt := iocb.resubmit_cnt + 1 }] s).2.metrics with
              resubmit_io_on_err :=
                (io_submit k [{ iocb with resubmit_cnt := iocb.resubmit_cnt + 1 }]
                  s).2.metrics.resubmit_io_on_err + 1 } } :=
      effect_of_same c _ _ rfl rfl rfl rfl
    have hcc : cookie_count c [{ iocb with resubmit_cnt := iocb.resubmit_cnt + 1 }]
        = cookie_count c [iocb] := rfl
    by_cases hr : (k s.n_io_submit 1).1 = 1
    · have hfst : (io_submit k [{ iocb with resubmit_cnt := iocb.resubmit_cnt + 1 }] s).1 = 1 := hr
      have ht : cookie_count c
          ([{ iocb with resubmit_cnt := iocb.resubmit_cnt + 1 }].take (k s.n_io_submit 1).1.toNat)
          = cookie_count c [iocb] := by rw [hr]; rfl
      rw [ht] at h1
      simp only [resubmit_iocb_on_err, hcnt, if_false, hfst, ne_eq, not_true_eq_false, and_self,
        true_and]
      exact effect_trans_eq c h1 h2 (by omega)
    · have hfst : (io_submit k [{ iocb with resubmit_cnt := iocb.resubmit_cnt + 1 }] s).1 ≠ 1 := hr
      rw [take_toNat_of_le_one _ _ hle hr, cookie_count_nil] at h1
      have h3 := handle_io_failure_effect c { iocb with resubmit_cnt := iocb.resubmit_cnt + 1 }
        { (io_submit k [{ iocb with resubmit_cnt := iocb.resubmit_cnt + 1 }] s).2 with
          metrics :=
            { (io_submit k [{ iocb with resubmit_cnt := iocb.resubmit_cnt + 1 }] s).2.metrics with
              resubmit_io_on_err :=
                (io_submit k [{ iocb with resubmit_cnt := iocb.resubmit_cnt + 1 }]
                  s).2.metrics.resubmit_io_on_err + 1 } }
      rw [hcc] at h3
      simp only [resubmit_iocb_on_err, hcnt, if_false, hfst, ne_eq, not_false_eq_true, if_true,
        true_and]
      have h12 := @effect_trans_eq c 0 0 0 _ 0 0 _ _ _ h1 h2 (by omega)
      exact effect_trans_eq c h12 h3 (by omega)

theorem handle_completions_body_effect (c : Nat) (cfg : Config) (k : Kernel) (hk : kernel_ok k)
    (s : State) (e : io_event) :
    effect c 0 (cookie_count c [e.obj]) s (handle_completions_body cfg k s e) := by
  have hm : effect c 0 0 s
      { s with metrics :=
        { s.metrics with completion_errors := s.metrics.completion_errors + 1 } } :=
    effect_of_same c _ _ rfl rfl rfl rfl
  by_cases hneg : e.res < 0
  · simp only [handle_completions_body, hneg, if_true]
    exact effect_trans_eq c hm (handle_completions_finish_effect c cfg k hk _ _ _) (by omega)
  · by_cases hshort : e.res ≠ (e.obj.size : Int) ∨ e.res2 ≠ 0
    · simp only [handle_completions_body, hneg, if_false, hshort, if_true]
      rcases resubmit_iocb_on_err_effect c cfg k hk e.obj
        { s with metrics :=
          { s.metrics with completion_errors := s.metrics.completion_errors + 1 } }
        with ⟨h1, h2⟩ | ⟨h1, h2⟩
      · rw [h1, h2]
        simp only [Bool.false_eq_true, if_false]
        exact effect_trans_eq c hm (handle_completions_finish_effect c cfg k hk _ _ _) (by omega)
      · rw [h1]
        simp only [if_true]
        exact effect_trans_eq c hm h2 (by omega)
    · simp only [handle_completions_body, hneg, if_false, hshort]
      exact handle_completions_finish_effect c cfg k hk _ _ _

theorem handle_completions_fold_effect (c : Nat) (cfg : Config) (k : Kernel) (hk : kernel_ok k)
    (evs : List io_event) (s : State) :
    effect c 0 (cookie_count c (evs.map io_event.obj)) s
      (evs.foldl (handle_completions_body cfg k) s) := by
  induction evs generalizing s with
  | nil => exact effect_refl c s
  | cons e evs ih =>
    rw [List.foldl_cons, List.map_cons, cookie_count_cons]
    exact effect_trans_eq c (handle_completions_body_effect c cfg k hk s e) (ih _) (by omega)

theorem cookie_count_diff (c : Nat) (held objs : List iocb_info_t) (h : List.Subperm objs held) :
    cookie_count c (held.diff objs) + cookie_count c objs = cookie_count c held := by
  have hp : List.Perm (objs ++ held.diff objs) held :=
    List.subperm_append_diff_self_of_count_le (List.subperm_ext_iff.mp h)
  have := List.Perm.countP_eq (fun d => decide (d.data = c)) hp
  unfold cookie_count
  rw [← this, List.countP_append]
  omega

theorem handle_completions_effect (c : Nat) (cfg : Config) (k : Kernel) (hk : kernel_ok k)
    (nevents : Int) (events : List io_event) (s : State)
    (hsub : List.Subperm ((events.take nevents.toNat).map io_event.obj) s.held) :
    effect c 0 0 s (handle_completions cfg k nevents events s) := by
  have hd := cookie_count_diff c s.held _ hsub
  have h0 : ∀ m : Metrics, effect c (cookie_count c ((events.take nevents.toNat).map io_event.obj)) 0 s
      { s with held := s.held.diff ((events.take nevents.toNat).map io_event.obj), metrics := m } := by
    intro m
    constructor
    · unfold mass pending
      dsimp only
      omega
    · rfl
  have hf := handle_completions_fold_effect c cfg k hk (events.take nevents.toNat)
  by_cases hz : nevents = 0
  · simp only [handle_completions, hz, if_true]
    have hd0 : s.held.diff ((events.take (0 : Int).toNat).map io_event.obj) = s.held := by simp
    exact effect_of_same c _ _ rfl rfl rfl hd0
  · by_cases hn : nevents < 0
    · simp only [handle_completions, hz, if_false, hn, if_true]
      exact effect_trans_eq c (h0 _) (hf _) (by omega)
    · simp only [handle_completions, hz, if_false, hn]
      exact effect_trans_eq c (h0 _) (hf _) (by omega)

theorem push_retry_list_effect (c : Nat) (d : iocb_info_t) (no_slot : Bool) (s : State) :
    effect c 0 (cookie_count c [d]) s (push_retry_list d no_slot s) := by
  constructor
  · unfold mass pending push_retry_list
    dsimp only
    rw [cookie_count_append]
    omega
  · rfl

theorem append_cur_batch_effect (c : Nat) (d : iocb_info_t) (s : State) :
    effect c 0 (cookie_count c [d]) s (append_cur_batch d s) := by
  constructor
  · unfold mass pending append_cur_batch
    dsimp only
    rw [cookie_count_append]
    omega
  · rfl

theorem async_submit_effect (c : Nat) (cfg : Config) (k : Kernel) (hk : kernel_ok k)
    (is_read : Bool) (iovcnt : Nat) (fd : Int) (size offset cookie : Nat) (part_of_batch : Bool)
    (s : State) :
    effect c 0 (cookie_count c [prep_iocb fd is_read size offset cookie]) s
      (async_submit cfg k is_read iovcnt fd size offset cookie part_of_batch s) := by
  by_cases hc : can_submit_aio cfg s = true
  · by_cases hb : (part_of_batch && can_be_batched cfg s iovcnt) = true
    · simp only [async_submit, hc, hb, Bool.not_true, Bool.false_eq_true, if_false, if_true]
      exact append_cur_batch_effect c _ s
    · have hm : effect c 0 0 s
          { s with metrics :=
            { s.metrics with iface_io_batch_count := s.metrics.iface_io_batch_count + 1
                             iface_io_actual_count := s.metrics.iface_io_actual_count + 1 } } :=
        effect_of_same c _ _ rfl rfl rfl rfl
      have h1 := io_submit_effect c k [prep_iocb fd is_read size offset cookie]
        { s with metrics :=
          { s.metrics with iface_io_batch_count := s.metrics.iface_io_batch_count + 1
                           iface_io_actual_count := s.metrics.iface_io_actual_count + 1 } }
      simp only [List.length_singleton] at h1
      have hle : (k s.n_io_submit 1).1 ≤ 1 := by simpa using hk s.n_io_submit 1
      have h2 := inc_submitted_aio_effect c (k s.n_io_submit 1).1
        (io_submit k [prep_iocb fd is_read size offset cookie]
          { s with metrics :=
            { s.metrics with iface_io_batch_count := s.metrics.iface_io_batch_count + 1
                             iface_io_actual_count := s.metrics.iface_io_actual_count + 1 } }).2
      by_cases hr : (k s.n_io_submit 1).1 = 1
      · have hfst : (io_submit k [prep_iocb fd is_read size offset cookie]
            { s with metrics :=
              { s.metrics with iface_io_batch_count := s.metrics.iface_io_batch_count + 1
                               iface_io_actual_count := s.metrics.iface_io_actual_count + 1 } }).1
            = 1 := hr
        have ht : cookie_count c
            ([prep_iocb fd is_read size offset cookie].take (k s.n_io_submit 1).1.toNat)
            = cookie_count c [prep_iocb fd is_read size offset cookie] := by rw [hr]; rfl
        rw [ht] at h1
        rw [hr] at h2
        simp only [async_submit, hc, hb, Bool.not_true, Bool.false_eq_true, if_false, hfst,
          ne_eq, not_true_eq_false]
        have h01 := @effect_trans_eq c 0 0 0 _ 0
          (cookie_count c [prep_iocb fd is_read size offset cookie]) _ _ _ hm h1 (by omega)
        exact effect_trans_eq c h01 h2 (by omega)
      · have hfst : (io_submit k [prep_iocb fd is_read size offset cookie]
            { s with metrics :=
              { s.metrics with iface_io_batch_count := s.metrics.iface_io_batch_count + 1
                               iface_io_actual_count := s.metrics.iface_io_actual_count + 1 } }).1
            = (k s.n_io_submit 1).1 := rfl
        rw [take_toNat_of_le_one _ _ hle hr, cookie_count_nil] at h1
        have h3 := handle_io_failure_effect c (prep_iocb fd is_read size offset cookie)
          (inc_submitted_aio (k s.n_io_submit 1).1
            (io_submit k [prep_iocb fd is_read size offset cookie]
              { s with metrics :=
                { s.metrics with iface_io_batch_count := s.metrics.iface_io_batch_count + 1
                                 iface_io_actual_count := s.metrics.iface_io_actual_count + 1 } }).2)
        simp only [async_submit, hc, hb, Bool.not_true, Bool.false_eq_true, if_false, hfst,
          ne_eq, hr, not_false_eq_true, if_true]
        have h01 := @effect_trans_eq c 0 0 0 _ 0 0 _ _ _ hm h1 (by omega)
        have h02 := @effect_trans_eq c 0 0 0 _ 0 0 _ _ _ h01 h2 (by omega)
        exact effect_trans_eq c h02 h3 (by omega)
  · have hc' : can_submit_aio cfg s = false := by simpa using hc
    simp only [async_submit, hc', Bool.not_false, if_true]
    exact push_retry_list_effect c _ true s

theorem submit_batch_effect (c : Nat) (k : Kernel) (hk : kernel_ok k) (s : State) :
    effect c 0 0 s (submit_batch k s) := by
  by_cases hlen : s.cur_iocb_batch.length = 0
  · have hb : s.cur_iocb_batch = [] := List.length_eq_zero.mp hlen
    simp only [submit_batch, hlen, if_true]
    exact effect_of_same c _ _ rfl hb.symm rfl rfl
  · have hr := hk s.n_io_submit s.cur_iocb_batch.length
    generalize hrv : k s.n_io_submit s.cur_iocb_batch.length = rv at hr
    have hn : (if rv.1 < 0 then (0 : Int) else rv.1) = max rv.1 0 := by
      split_ifs with h
      · exact (max_eq_right (le_of_lt h)).symm
      · exact (max_eq_left (not_lt.mp h)).symm
    have hle : (max rv.1 0).toNat ≤ s.cur_iocb_batch.length := by
      have : max rv.1 0 ≤ (s.cur_iocb_batch.length : Int) := max_le hr (by positivity)
      omega
    have htake : rv.1.toNat = (max rv.1 0).toNat := by
      rcases le_total rv.1 0 with h | h
      · rw [max_eq_right h]; simp [Int.toNat_eq_zero.mpr h]
      · rw [max_eq_left h]
    unfold submit_batch
    simp only [hlen, if_false, io_submit, hrv, hn]
    rw [submit_batch_loop_eq _ _ _ _ (by omega)]
    have hd : List.take (s.cur_iocb_batch.length - (max rv.1 0).toNat)
        (List.drop (max rv.1 0).toNat s.cur_iocb_batch)
        = List.drop (max rv.1 0).toNat s.cur_iocb_batch := by
      apply List.take_of_length_le
      simp
    rw [hd]
    generalize hst : inc_submitted_aio (max rv.1 0) _ = st
    have e2 : st.held = s.held ++ List.take rv.1.toNat s.cur_iocb_batch := by
      rw [← hst]; exact (inc_submitted_aio_frame _ _).2.1
    have e3 : st.trace = s.trace ++ [Action.io_submit s.cur_iocb_batch rv.1] := by
      rw [← hst]; exact (inc_submitted_aio_frame _ _).2.2.1
    have e5 : st.cur_iocb_batch = [] := by
      rw [← hst]; exact (inc_submitted_aio_frame _ _).2.2.2.2.1
    have e6 : st.iocb_retry_list = s.iocb_retry_list := by
      rw [← hst]; exact (inc_submitted_aio_frame _ _).2.2.2.2.2.1
    have hsplit : cookie_count c (List.take (max rv.1 0).toNat s.cur_iocb_batch)
        + cookie_count c (List.drop (max rv.1 0).toNat s.cur_iocb_batch)
        = cookie_count c s.cur_iocb_batch := by
      rw [← cookie_count_append, List.take_append_drop]
    have h1 : effect c (cookie_count c s.cur_iocb_batch)
        (cookie_count c (List.take (max rv.1 0).toNat s.cur_iocb_batch)) s st := by
      unfold effect mass pending
      rw [e2, e3, e5, e6, htake, cb_count_append, release_count_append, cookie_count_append,
        cb_count_submit, release_count_submit, cookie_count_nil]
      exact ⟨by omega, by omega⟩
    exact effect_trans_eq c h1 (fail_each_effect c _ st) (by omega)

theorem retry_timer_effect (c : Nat) (cfg : Config) (k : Kernel) (hk : kernel_ok k) (s : State) :
    effect c 0 0 s (retry_timer cfg k s) := by
  have h1 : effect c 0 0 s { s with timer_set := false } := effect_of_same c _ _ rfl rfl rfl rfl
  exact effect_trans_eq c h1 (retry_io_effect c cfg k hk _) (by omega)

theorem cookie_count_prep (c : Nat) (fd : Int) (is_read : Bool) (size offset cookie : Nat) :
    cookie_count c [prep_iocb fd is_read size offset cookie] = (some cookie).toList.count c := by
  by_cases h : cookie = c
  · simp [cookie_count, prep_iocb, h]
  · have h' : ¬ (cookie == c) = true := by simpa using h
    simp [cookie_count, prep_iocb, h, List.count_cons, h']

theorem step_effect (c : Nat) (cfg : Config) (k : Kernel) (hk : kernel_ok k) (s : State) (op : Op)
    (hop : op_ok s op) :
    effect c 0 ((op_cookie op).toList.count c) s (step cfg k s op) := by
  cases op with
  | async_write fd size offset cookie b =>
    have h := async_submit_effect c cfg k hk false 0 fd size offset cookie b s
    rw [cookie_count_prep] at h
    exact h
  | async_read fd size offset cookie b =>
    have h := async_submit_effect c cfg k hk true 0 fd size offset cookie b s
    rw [cookie_count_prep] at h
    exact h
  | async_writev fd iovcnt size offset cookie b =>
    have h := async_submit_effect c cfg k hk false iovcnt fd size offset cookie b s
    rw [cookie_count_prep] at h
    exact h
  | async_readv fd iovcnt size offset cookie b =>
    have h := async_submit_effect c cfg k hk true iovcnt fd size offset cookie b s
    rw [cookie_count_prep] at h
    exact h
  | submit_batch => exact submit_batch_effect c k hk s
  | handle_completions nevents events => exact handle_completions_effect c cfg k hk _ _ s hop
  | retry_timer => exact retry_timer_effect c cfg k hk s

theorem accepted_cons (c : Nat) (op : Op) (ops : List Op) :
    accepted c (op :: ops) = (op_cookie op).toList.count c + accepted c ops := by
  unfold accepted
  cases h : op_cookie op with
  | none => simp [List.filterMap_cons, h]
  | some x =>
    simp only [List.filterMap_cons, h, Option.toList]
    rw [List.count_cons, List.count_cons, List.count_nil]
    omega

/-- Conservation of requests along a sequence of admissible calls. -/
theorem run_effect (c : Nat) (cfg : Config) (k : Kernel) (hk : kernel_ok k) (ops : List Op)
    (s : State) (hops : ops_ok cfg k s ops) :
    effect c 0 (accepted c ops) s (run cfg k s ops) := by
  induction ops generalizing s with
  | nil => exact effect_refl c s
  | cons op ops ih =>
    obtain ⟨h1, h2⟩ := hops
    have hrun : run cfg k s (op :: ops) = run cfg k (step cfg k s op) ops := rfl
    rw [hrun, accepted_cons]
    exact effect_trans_eq c (step_effect c cfg k hk s op h1) (ih _ h2) (by omega)

/-! ## Conservation of requests: no request is reported twice -/

/-- Safety half of exactly-once completion. Along every sequence of calls (`async_read`, `async_write`, `async_readv`,
`async_writev`, batched or not, `submit_batch`, `handle_completions`, retry timer)
on a freshly attached context, for every kernel whose `io_submit` never reports
more than it was given and whose completion records are for descriptors it
holds, and for every cookie `c`: the number of callbacks with cookie `c` plus
the number of requests with cookie `c` still pending (in the accumulator, in
the retry queue or in the kernel) equals the number of requests accepted with
cookie `c`, and the releases of descriptors with cookie `c` are as many as the
callbacks with cookie `c`. For a request whose cookie is used once this says:
its callback is never invoked twice, and it has been invoked once exactly when
the request is no longer pending. Since the statement holds after every call,
each call releases exactly as many descriptors of a cookie as it invokes
callbacks for it. The statement does not say that a pending request is ever
reported; the starvation theorem at the end of the file shows one that is not. -/
theorem requests_conserved (cfg : Config) (k : Kernel) (ops : List Op) (c : Nat)
    (hk : kernel_ok k) (hops : ops_ok cfg k (init_iface_thread_ctx cfg) ops) :
    cb_count c (run cfg k (init_iface_thread_ctx cfg) ops).trace
        + pending c (run cfg k (init_iface_thread_ctx cfg) ops) = accepted c ops ∧
    release_count c (run cfg k (init_iface_thread_ctx cfg) ops).trace
      = cb_count c (run cfg k (init_iface_thread_ctx cfg) ops).trace ∧
    (accepted c ops = 1 →
      cb_count c (run cfg k (init_iface_thread_ctx cfg) ops).trace ≤ 1 ∧
      (cb_count c (run cfg k (init_iface_thread_ctx cfg) ops).trace = 1 ↔
        pending c (run cfg k (init_iface_thread_ctx cfg) ops) = 0)) := by
  obtain ⟨m, r⟩ := run_effect c cfg k hk ops (init_iface_thread_ctx cfg) hops
  have p0 : pending c (init_iface_thread_ctx cfg) = 0 := rfl
  have r0 : release_count c (init_iface_thread_ctx cfg).trace = 0 := rfl
  have c0 : cb_count c (init_iface_thread_ctx cfg).trace = 0 := rfl
  unfold mass at m
  rw [p0, c0] at m
  rw [r0, c0] at r
  refine ⟨by omega, by omega, ?_⟩
  intro h1
  constructor
  · omega
  · constructor <;> intro h <;> omega

/-- Instance of `requests_conserved`: a single write with cookie 1 that the kernel
accepts and completes in full; the callback count for cookie 1 is exactly 1. -/
theorem requests_conserved_example :
    kernel_ok kernel_accept_all ∧
    ops_ok cfg_sample kernel_accept_all (init_iface_thread_ctx cfg_sample)
      ops_write_then_complete ∧
    cb_count 1 (run cfg_sample kernel_accept_all (init_iface_thread_ctx cfg_sample)
        ops_write_then_complete).trace
      + pending 1 (run cfg_sample kernel_accept_all (init_iface_thread_ctx cfg_sample)
        ops_write_then_complete) = accepted 1 ops_write_then_complete ∧
    cb_count 1 (run cfg_sample kernel_accept_all (init_iface_thread_ctx cfg_sample)
        ops_write_then_complete).trace = 1 :=
  ⟨fun _ _ => le_refl _,
   ⟨trivial, List.Subperm.refl [write512 1], trivial⟩,
   (requests_conserved cfg_sample kernel_accept_all ops_write_then_complete 1
      (fun _ _ => le_refl _) ⟨trivial, List.Subperm.refl [write512 1], trivial⟩).1,
   rfl⟩

/-! ## Starvation: a starved request stays starved -/

theorem retry_io_full (cfg : Config) (k : Kernel) (s : State)
    (h : can_submit_aio cfg s = false) : retry_io cfg k s = s := by
  unfold retry_io
  rw [retry_io_loop_full cfg k _ s h]
  rfl

theorem starved_push (cfg : Config) (c : Nat) (d : iocb_info_t) (no_slot : Bool) (s : State)
    (h : starved cfg c s) : starved cfg c (push_retry_list d no_slot s) := by
  obtain ⟨h1, h2, h3, h4, h5⟩ := h
  refine ⟨h1, h2, h3, h4, ?_⟩
  have : (push_retry_list d no_slot s).iocb_retry_list = s.iocb_retry_list ++ [d] := rfl
  rw [this, cookie_count_append]
  omega

theorem starved_async_submit (cfg : Config) (k : Kernel) (c : Nat) (is_read : Bool)
    (iovcnt : Nat) (fd : Int) (size offset cookie : Nat) (part_of_batch : Bool) (s : State)
    (h : starved cfg c s) :
    starved cfg c (async_submit cfg k is_read iovcnt fd size offset cookie part_of_batch s) := by
  have hc := h.1
  simp only [async_submit, hc, Bool.not_false, if_true]
  exact starved_push cfg c _ true s h

theorem starved_submit_batch (cfg : Config) (k : Kernel) (c : Nat) (s : State)
    (h : starved cfg c s) : starved cfg c (submit_batch k s) := by
  obtain ⟨h1, h2, h3, h4, h5⟩ := h
  have hlen : s.cur_iocb_batch.length = 0 := by rw [h3]; rfl
  simp only [submit_batch, hlen, if_true]
  exact ⟨h1, h2, rfl, h4, h5⟩

theorem starved_handle_completions (cfg : Config) (k : Kernel) (c : Nat) (nevents : Int)
    (events : List io_event) (s : State) (h : starved cfg c s)
    (hop : List.Subperm ((events.take nevents.toNat).map io_event.obj) s.held) :
    starved cfg c (handle_completions cfg k nevents events s) := by
  obtain ⟨h1, h2, h3, h4, h5⟩ := h
  rw [h2] at hop
  have hmap : (events.take nevents.toNat).map io_event.obj = [] :=
    List.eq_nil_of_subset_nil hop.subset
  have hnil : events.take nevents.toNat = [] := List.map_eq_nil_iff.mp hmap
  have hdiff : s.held.diff ([] : List iocb_info_t) = [] := by rw [List.diff_nil]; exact h2
  by_cases hz : nevents = 0
  · simp only [handle_completions, hz, if_true]
    have h0 : List.take (0 : Int).toNat events = [] := rfl
    simp only [h0, List.map_nil]
    exact ⟨h1, hdiff, h3, h4, h5⟩
  · by_cases hn : nevents < 0
    · simp only [handle_completions, hz, if_false, hn, if_true, hnil, List.map_nil,
        List.foldl_nil]
      exact ⟨h1, hdiff, h3, h4, h5⟩
    · simp only [handle_completions, hz, if_false, hn, hnil, List.map_nil, List.foldl_nil]
      exact ⟨h1, hdiff, h3, h4, h5⟩

theorem starved_retry_timer (cfg : Config) (k : Kernel) (c : Nat) (s : State)
    (h : starved cfg c s) : starved cfg c (retry_timer cfg k s) := by
  obtain ⟨h1, h2, h3, h4, h5⟩ := h
  have hc : can_submit_aio cfg { s with timer_set := false } = false := h1
  unfold retry_timer
  rw [retry_io_full cfg k _ hc]
  exact ⟨h1, h2, h3, h4, h5⟩

theorem starved_step (cfg : Config) (k : Kernel) (c : Nat) (s : State) (op : Op)
    (h : starved cfg c s) (hop : op_ok s op) : starved cfg c (step cfg k s op) := by
  cases op with
  | async_write fd size offset cookie b => exact starved_async_submit cfg k c _ _ _ _ _ _ _ s h
  | async_read fd size offset cookie b => exact starved_async_submit cfg k c _ _ _ _ _ _ _ s h
  | async_writev fd iovcnt size offset cookie b =>
    exact starved_async_submit cfg k c _ _ _ _ _ _ _ s h
  | async_readv fd iovcnt size offset cookie b =>
    exact starved_async_submit cfg k c _ _ _ _ _ _ _ s h
  | submit_batch => exact starved_submit_batch cfg k c s h
  | handle_completions nevents events =>
    exact starved_handle_completions cfg k c nevents events s h hop
  | retry_timer => exact starved_retry_timer cfg k c s h

/-- Once a request is starved, no admissible sequence of calls gets it out of the retry
queue or produces its callback, whatever the kernel would answer. -/
theorem starved_run (cfg : Config) (k : Kernel) (c : Nat) (ops : List Op) (s : State)
    (h : starved cfg c s) (hops : ops_ok cfg k s ops) : starved cfg c (run cfg k s ops) := by
  induction ops generalizing s with
  | nil => exact h
  | cons op ops ih =>
    obtain ⟨h1, h2⟩ := hops
    have hrun : run cfg k s (op :: ops) = run cfg k (step cfg k s op) ops := rfl
    rw [hrun]
    exact ih _ (starved_step cfg k c s op h h1) h2

/-! ## Starvation: how the counter leaks up to capacity -/

theorem leak_write_step (cfg : Config) (n : Nat) (s : State) (h : leaked n s)
    (hn : n < cfg.MAX_OUTSTANDING) (hm : cfg.MAX_OUTSTANDING < UINT64_SIZE) :
    (async_write cfg kernel_reject_odd 3 512 0 1 false s).submitted_aio = n + 1 ∧
    (async_write cfg kernel_reject_odd 3 512 0 1 false s).held = [write512 1] ∧
    (async_write cfg kernel_reject_odd 3 512 0 1 false s).cur_iocb_batch = [] ∧
    (async_write cfg kernel_reject_odd 3 512 0 1 false s).iocb_retry_list = [] ∧
    (async_write cfg kernel_reject_odd 3 512 0 1 false s).n_io_submit = s.n_io_submit + 1 ∧
    (async_write cfg kernel_reject_odd 3 512 0 1 false s).trace
      = s.trace ++ [Action.io_submit [write512 1] 1] := by
  obtain ⟨h1, h2, h3, h4, h5, h6⟩ := h
  have hc : s.submitted_aio < cfg.MAX_OUTSTANDING := by omega
  have hlt : s.submitted_aio + 1 < UINT64_SIZE := by omega
  have hodd : ¬ s.n_io_submit % 2 = 1 := by omega
  have hlt' : n + 1 < UINT64_SIZE := by omega
  have hnle : ¬ cfg.MAX_OUTSTANDING ≤ n := by omega
  simp [async_write, async_submit, can_submit_aio, hn, hnle, kernel_reject_odd, hodd, io_submit,
    inc_submitted_aio, set_poll_interval, Nat.mod_eq_of_lt hlt', h1, h2, h3, h4, write512]

theorem leak_completion_step (cfg : Config) (s : State)
    (hheld : s.held = [write512 1]) (hb : s.cur_iocb_batch = []) (hq : s.iocb_retry_list = [])
    (hodd : s.n_io_submit % 2 = 1) :
    (handle_completions cfg kernel_reject_odd 1 [completion (write512 1) 100 0] s).submitted_aio
      = s.submitted_aio ∧
    (handle_completions cfg kernel_reject_odd 1 [completion (write512 1) 100 0] s).held = [] ∧
    (handle_completions cfg kernel_reject_odd 1 [completion (write512 1) 100 0] s).cur_iocb_batch
      = [] ∧
    (handle_completions cfg kernel_reject_odd 1 [completion (write512 1) 100 0] s).iocb_retry_list
      = [] ∧
    (handle_completions cfg kernel_reject_odd 1 [completion (write512 1) 100 0] s).n_io_submit
      = s.n_io_submit + 1 ∧
    (handle_completions cfg kernel_reject_odd 1 [completion (write512 1) 100 0] s).trace
      = s.trace ++ [Action.io_submit [write512_resubmitted 1 1] (-1),
          Action.io_failure (write512_resubmitted 1 1),
          Action.free_iocb (write512_resubmitted 1 1),
          Action.comp_cb EIO_errno 1] := by
  have hevs : List.take (1 : Int).toNat [completion (write512 1) 100 0]
      = [completion (write512 1) 100 0] := rfl
  have hne : ¬ ((1 : Int) = 0) := by decide
  have hnn : ¬ ((1 : Int) < 0) := by decide
  have hres : ¬ ((completion (write512 1) 100 0).res < 0) := by decide
  have hshort : (completion (write512 1) 100 0).res
      ≠ (((completion (write512 1) 100 0).obj.size : Nat) : Int)
      ∨ (completion (write512 1) 100 0).res2 ≠ 0 := Or.inl (by decide)
  have hcnt : ¬ ((completion (write512 1) 100 0).obj.resubmit_cnt > cfg.max_resubmit_cnt) := by
    show ¬ (0 > cfg.max_resubmit_cnt)
    omega
  have herr : ¬ (EIO_errno = EAGAIN) := by decide
  simp only [handle_completions, hevs, hne, hnn, if_false, List.foldl_cons, List.foldl_nil,
    handle_completions_body, hres, hshort, if_true, resubmit_iocb_on_err, hcnt, io_submit,
    List.length_singleton, kernel_reject_odd, hodd, handle_io_failure, herr, free_iocb, comp_cb,
    List.map_cons, List.map_nil, hheld, hb, hq]
  simp [completion, write512, write512_resubmitted, prep_iocb, EIO_errno]

theorem ops_ok_append (cfg : Config) (k : Kernel) (s : State) (a b : List Op) :
    ops_ok cfg k s (a ++ b) ↔ ops_ok cfg k s a ∧ ops_ok cfg k (run cfg k s a) b := by
  induction a generalizing s with
  | nil => simp [ops_ok, run]
  | cons op a ih =>
    show (op_ok s op ∧ ops_ok cfg k (step cfg k s op) (a ++ b))
      ↔ (op_ok s op ∧ ops_ok cfg k (step cfg k s op) a)
        ∧ ops_ok cfg k (run cfg k (step cfg k s op) a) b
    rw [ih, and_assoc]

theorem accepted_append (c : Nat) (a b : List Op) :
    accepted c (a ++ b) = accepted c a + accepted c b := by
  simp [accepted, List.filterMap_append, List.count_append]

theorem accepted_ops_leak (n : Nat) : accepted 2 (ops_leak n) = 0 := by
  induction n with
  | zero => rfl
  | succ n ih =>
    have h : ops_leak (n + 1) = ops_leak_round ++ ops_leak n := rfl
    rw [h, accepted_append, ih]
    rfl

theorem leak_round (cfg : Config) (n : Nat) (s : State) (h : leaked n s)
    (hn : n < cfg.MAX_OUTSTANDING) (hm : cfg.MAX_OUTSTANDING < UINT64_SIZE) :
    leaked (n + 1) (run cfg kernel_reject_odd s ops_leak_round) ∧
    ops_ok cfg kernel_reject_odd s ops_leak_round := by
  obtain ⟨w1, w2, w3, w4, w5, w6⟩ := leak_write_step cfg n s h hn hm
  obtain ⟨h1, h2, h3, h4, h5, h6⟩ := h
  have hodd : (async_write cfg kernel_reject_odd 3 512 0 1 false s).n_io_submit % 2 = 1 := by
    rw [w5]; omega
  obtain ⟨c1, c2, c3, c4, c5, c6⟩ := leak_completion_step cfg
    (async_write cfg kernel_reject_odd 3 512 0 1 false s) w2 w3 w4 hodd
  have hrun : run cfg kernel_reject_odd s ops_leak_round
      = handle_completions cfg kernel_reject_odd 1 [completion (write512 1) 100 0]
          (async_write cfg kernel_reject_odd 3 512 0 1 false s) := rfl
  constructor
  · rw [hrun]
    refine ⟨by rw [c1, w1], c2, c3, c4, by rw [c5, w5]; omega, ?_⟩
    rw [c6, w6, cb_count_append, cb_count_append, h6]
    rfl
  · refine ⟨trivial, ?_, trivial⟩
    show List.Subperm [write512 1] (async_write cfg kernel_reject_odd 3 512 0 1 false s).held
    rw [w2]

theorem leak_run (cfg : Config) (hm : cfg.MAX_OUTSTANDING < UINT64_SIZE) (j n : Nat) (s : State)
    (h : leaked n s) (hj : n + j ≤ cfg.MAX_OUTSTANDING) :
    leaked (n + j) (run cfg kernel_reject_odd s (ops_leak j)) ∧
    ops_ok cfg kernel_reject_odd s (ops_leak j) := by
  induction j generalizing n s with
  | zero => exact ⟨h, trivial⟩
  | succ j ih =>
    have hdef : ops_leak (j + 1) = ops_leak_round ++ ops_leak j := rfl
    obtain ⟨r1, r2⟩ := leak_round cfg n s h (by omega) hm
    obtain ⟨i1, i2⟩ := ih (n + 1) _ r1 (by omega)
    rw [hdef, run_append, ops_ok_append]
    have e : n + (j + 1) = n + 1 + j := by omega
    rw [e]
    exact ⟨i1, r2, i2⟩

theorem kernel_reject_odd_ok : kernel_ok kernel_reject_odd := by
  intro i nr
  unfold kernel_reject_odd
  split_ifs
  · show (-1 : Int) ≤ (nr : Int)
    omega
  · exact le_refl _

/-- The starvation run ends in a state in which the request with cookie 2 is starved,
and every call of the run is admissible. -/
theorem starve_reaches_starved (cfg : Config) (hm : cfg.MAX_OUTSTANDING < UINT64_SIZE) :
    starved cfg 2 (run cfg kernel_reject_odd (init_iface_thread_ctx cfg) (ops_starve cfg)) ∧
    ops_ok cfg kernel_reject_odd (init_iface_thread_ctx cfg) (ops_starve cfg) := by
  have h0 : leaked 0 (init_iface_thread_ctx cfg) := ⟨rfl, rfl, rfl, rfl, rfl, rfl⟩
  obtain ⟨l1, l2⟩ := leak_run cfg hm cfg.MAX_OUTSTANDING 0 _ h0 (by omega)
  rw [Nat.zero_add] at l1
  obtain ⟨h1, h2, h3, h4, h5, h6⟩ := l1
  unfold ops_starve
  rw [run_append, ops_ok_append]
  generalize run cfg kernel_reject_odd (init_iface_thread_ctx cfg)
    (ops_leak cfg.MAX_OUTSTANDING) = s at h1 h2 h3 h4 h5 h6
  have hc : can_submit_aio cfg s = false := by simp [can_submit_aio, h1]
  have hrun : run cfg kernel_reject_odd s [Op.async_write 3 512 0 2 false]
      = async_submit cfg kernel_reject_odd false 0 3 512 0 2 false s := rfl
  have hstep : async_submit cfg kernel_reject_odd false 0 3 512 0 2 false s
      = push_retry_list (prep_iocb 3 false 512 0 2) true s := by
    simp only [async_submit, hc, Bool.not_false, if_true]
  rw [hrun, hstep]
  refine ⟨⟨hc, h2, h3, h6, ?_⟩, l2, trivial, trivial⟩
  show 1 ≤ cookie_count 2 (s.iocb_retry_list ++ [prep_iocb 3 false 512 0 2])
  rw [h4]
  exact le_refl 1

/-! ## Exactly-once completion: the request that is never reported (C1) -/

/-- C1 at a failing input. On a context of any capacity (below 2^64), repeat as many
times as the capacity: a 512-byte write with cookie 1 is accepted by the kernel,
completes short, and its resubmission is rejected with errno 5 (the request is
reported and released, but the counter is not decremented). The counter then
stands at capacity while the kernel holds nothing. A further write with cookie 2
is accepted by the interface and put on the retry queue. Every call of this run is
admissible and the kernel never returns more than it was given. From then on,
for every kernel and every admissible sequence of further calls, the request
with cookie 2, accepted once, is still in the retry queue, the kernel still holds
nothing, and the callback with cookie 2 has been invoked zero times. -/
theorem C1_request_never_reported (cfg : Config) (k : Kernel) (ops : List Op)
    (hm : cfg.MAX_OUTSTANDING < UINT64_SIZE)
    (hops : ops_ok cfg k
      (run cfg kernel_reject_odd (init_iface_thread_ctx cfg) (ops_starve cfg)) ops) :
    kernel_ok kernel_reject_odd ∧
    ops_ok cfg kernel_reject_odd (init_iface_thread_ctx cfg) (ops_starve cfg) ∧
    accepted 2 (ops_starve cfg) = 1 ∧
    cb_count 2 (run cfg k
      (run cfg kernel_reject_odd (init_iface_thread_ctx cfg) (ops_starve cfg)) ops).trace = 0 ∧
    1 ≤ cookie_count 2 (run cfg k
      (run cfg kernel_reject_odd (init_iface_thread_ctx cfg) (ops_starve cfg)) ops).iocb_retry_list ∧
    (run cfg k
      (run cfg kernel_reject_odd (init_iface_thread_ctx cfg) (ops_starve cfg)) ops).held = [] := by
  obtain ⟨s1, s2⟩ := starve_reaches_starved cfg hm
  obtain ⟨-, r2, -, r4, r5⟩ := starved_run cfg k 2 ops _ s1 hops
  have hacc : accepted 2 (ops_starve cfg) = 1 := by
    unfold ops_starve
    rw [accepted_append, accepted_ops_leak]
    rfl
  exact ⟨kernel_reject_odd_ok, s2, hacc, r4, r5, r2⟩

/-- Witness of `C1_request_never_reported`: capacity 200, and after the starvation run
the retry timer fires, a poll finds no completion and a batch is submitted, with a
kernel that would accept everything. -/
theorem C1_request_never_reported_witness :
    cfg_sample.MAX_OUTSTANDING < UINT64_SIZE ∧
    accepted 2 (ops_starve cfg_sample) = 1 ∧
    cb_count 2 (run cfg_sample kernel_accept_all
      (run cfg_sample kernel_reject_odd (init_iface_thread_ctx cfg_sample)
        (ops_starve cfg_sample)) ops_idle).trace = 0 ∧
    1 ≤ cookie_count 2 (run cfg_sample kernel_accept_all
      (run cfg_sample kernel_reject_odd (init_iface_thread_ctx cfg_sample)
        (ops_starve cfg_sample)) ops_idle).iocb_retry_list :=
  ⟨by decide,
   (C1_request_never_reported cfg_sample kernel_accept_all ops_idle (by decide)
      ⟨trivial, List.nil_subperm, trivial, trivial⟩).2.2.1,
   (C1_request_never_reported cfg_sample kernel_accept_all ops_idle (by decide)
      ⟨trivial, List.nil_subperm, trivial, trivial⟩).2.2.2.1,
   (C1_request_never_reported cfg_sample kernel_accept_all ops_idle (by decide)
      ⟨trivial, List.nil_subperm, trivial, trivial⟩).2.2.2.2.1⟩

end iomgr
